import Mathlib

/-!
Verification of the receipt ingestion & classification pipeline
(`iaeon.inventory`: `models.py`, `db.py`, `parser.py`, `searcher.py`).

The Python code is shallowly embedded:

* dataclasses become structures;
* the SQLite tables become lists of row structures inside `DBState`;
  `AUTOINCREMENT` ids are modelled with explicit `next_*_id` counters
  (SQLite starts them at 1);
* timestamps (`purchased_at`, ISO datetime strings in the code) are
  modelled by their local-calendar day number, an `Int`; lexicographic
  comparison / `MAX` on ISO strings agrees with integer order, and
  SQLite `date(ts, '+N days')` becomes integer addition.
  `julianday('now', 'localtime')` is modelled as a rational `now`:
  the integer part is the current local day number and the fractional
  part is the elapsed fraction of the local day (the two 0.5 julian-day
  offsets of `julianday(dateString)` and `julianday('now')` cancel in
  the difference the SQL computes);
* Python `dict` arguments keyed by strings become association lists;
* the JSON round trip used by the search cache is the identity on the
  seven `ProductInfo` fields, so cache values are stored as `ProductInfo`
  (floats as `ℚ`).
-/

/-- `ProductInfo` dataclass from `models.py` (Web検索で取得した商品詳細情報).
Field defaults follow the dataclass defaults. -/
structure ProductInfo where
  category : String := ""
  subcategory : String := ""
  content_amount : Option ℚ := none
  content_unit : String := ""
  manufacturer : String := ""
  storage_type : String := "常温"
  is_food : Bool := true
deriving Repr, DecidableEq

/-- `ParsedProduct` dataclass from `models.py` (レシートから抽出した商品情報). -/
structure ParsedProduct where
  name : String
  price : Int
  quantity : Int := 1
  discount : Int := 0
  barcode : Option String := none
deriving Repr, DecidableEq

/-- `ReceiptProducts` dataclass from `models.py`; `purchased_at` is the
day number of the receipt datetime (see the header of this file). -/
structure ReceiptProducts where
  receipt_id : String
  store_name : String
  purchased_at : Int
  products : List ParsedProduct := []
deriving Repr, DecidableEq

/-- A row of the `products` table (`db.py` `_init_db`).  `is_food` is stored
as an SQLite INTEGER, exactly as `int(info.is_food)` stores it. -/
structure ProductRow where
  id : Nat
  name : String
  category : String := ""
  subcategory : String := ""
  content_amount : Option ℚ := none
  content_unit : String := ""
  manufacturer : String := ""
  is_food : Int := 1
  storage_type : String := "常温"
  shelf_life_days : Option Int := none
deriving Repr, DecidableEq

/-- A row of the `purchases` table (`db.py` `_init_db`). -/
structure PurchaseRow where
  id : Nat
  product_id : Nat
  receipt_id : String
  store_name : String := ""
  price : Int := 0
  quantity : Int := 1
  discount : Int := 0
  purchased_at : Int
deriving Repr, DecidableEq

/-- A row of the `inventory` table (`db.py` `_init_db`); `status` is one of
`in_stock`, `consumed`, `expired` and defaults to `in_stock`. -/
structure InventoryRow where
  id : Nat
  purchase_id : Nat
  status : String := "in_stock"
deriving Repr, DecidableEq

/-- The durable state of `FoodInventoryDB`: the four tables created by
`_init_db`, plus the `AUTOINCREMENT` counters. -/
structure DBState where
  products : List ProductRow := []
  purchases : List PurchaseRow := []
  inventory : List InventoryRow := []
  search_cache : List (String × ProductInfo) := []
  next_product_id : Nat := 1
  next_purchase_id : Nat := 1
  next_inventory_id : Nat := 1
deriving Repr, DecidableEq

/-- A freshly initialised database (`_init_db` creates empty tables). -/
def emptyDB : DBState := {}

/-- `FoodInventoryDB.upsert_product` (`db.py` lines 87-125): look the name up
in `products`; if present, optionally overwrite the classification fields
(note: `shelf_life_days` is neither updated nor inserted by this function);
if absent, insert a new row and return its fresh id. -/
def upsert_product (st : DBState) (name : String) (info : Option ProductInfo) :
    Nat × DBState :=
  match st.products.find? (fun r => r.name == name) with
  | some row =>
    match info with
    | some i =>
      (row.id,
        { st with
          products := st.products.map (fun r =>
            if r.id == row.id then
              { r with
                category := i.category
                subcategory := i.subcategory
                content_amount := i.content_amount
                content_unit := i.content_unit
                manufacturer := i.manufacturer
                is_food := if i.is_food then 1 else 0
                storage_type := i.storage_type }
            else r) })
    | none => (row.id, st)
  | none =>
    let row : ProductRow :=
      match info with
      | some i =>
        { id := st.next_product_id
          name := name
          category := i.category
          subcategory := i.subcategory
          content_amount := i.content_amount
          content_unit := i.content_unit
          manufacturer := i.manufacturer
          is_food := if i.is_food then 1 else 0
          storage_type := i.storage_type }
      | none => { id := st.next_product_id, name := name }
    (st.next_product_id,
      { st with
        products := st.products ++ [row]
        next_product_id := st.next_product_id + 1 })

/-- `FoodInventoryDB.is_receipt_imported` (`db.py` lines 129-135):
`COUNT(*) > 0` over `purchases` filtered by `receipt_id`. -/
def is_receipt_imported (st : DBState) (receipt_id : String) : Bool :=
  st.purchases.any (fun p => p.receipt_id == receipt_id)

/-- The inventory INSERT of `db.py` lines 170-174: one new unit row for the
given purchase, with the default status `in_stock`.  A non-positive
quantity yields an empty `range(quantity)`, hence the `Int.toNat` at the
call site. -/
def insert_unit (purchase_id : Nat) (st : DBState) : DBState :=
  { st with
    inventory := st.inventory ++ [{
      id := st.next_inventory_id
      purchase_id := purchase_id }]
    next_inventory_id := st.next_inventory_id + 1 }

/-- One iteration of the `for product in receipt.products` loop of
`FoodInventoryDB.import_receipt` (`db.py` lines 154-175): resolve the
product info from the dict, upsert the product, insert one purchase row,
then run `insert_unit` once per `range(product.quantity)` iteration, and
increment the running count. -/
def import_step (rid store : String) (pat : Int)
    (product_infos : List (String × ProductInfo))
    (acc : Int × DBState) (product : ParsedProduct) : Int × DBState :=
  let info := product_infos.lookup product.name
  let up := upsert_product acc.2 product.name info
  let product_id := up.1
  let st1 := up.2
  let purchase_id := st1.next_purchase_id
  let st2 : DBState :=
    { st1 with
      purchases := st1.purchases ++ [{
        id := purchase_id
        product_id := product_id
        receipt_id := rid
        store_name := store
        price := product.price
        quantity := product.quantity
        discount := product.discount
        purchased_at := pat }]
      next_purchase_id := purchase_id + 1 }
  let st3 :=
    (List.range product.quantity.toNat).foldl
      (fun st _ => insert_unit purchase_id st) st2
  (acc.1 + 1, st3)

/-- `FoodInventoryDB.import_receipt` (`db.py` lines 137-178): return `0`
without touching the state when the receipt is already imported, otherwise
run `import_step` over the parsed products and return the count of purchase
rows written together with the new state. -/
def import_receipt (st : DBState) (receipt : ReceiptProducts)
    (product_infos : List (String × ProductInfo)) : Int × DBState :=
  if is_receipt_imported st receipt.receipt_id then (0, st)
  else
    receipt.products.foldl
      (import_step receipt.receipt_id receipt.store_name receipt.purchased_at
        product_infos)
      (0, st)

/-- The `inventory JOIN purchases JOIN products ... WHERE i.status = 'in_stock'`
join used by the two read queries of `db.py`: each in-stock inventory row is
paired with its purchase row and that purchase's product row (an inner join;
under the enforced foreign keys the referenced rows exist and ids are unique,
which makes `find?` the row referenced). -/
def joinFun (st : DBState) (i : InventoryRow) :
    Option (InventoryRow × PurchaseRow × ProductRow) :=
  if i.status == "in_stock" then
    match st.purchases.find? (fun pu => pu.id == i.purchase_id) with
    | some pu =>
      match st.products.find? (fun p => p.id == pu.product_id) with
      | some p => some (i, pu, p)
      | none => none
    | none => none
  else none

/-- The in-stock join itself, one element per qualifying inventory row. -/
def inStockJoined (st : DBState) :
    List (InventoryRow × PurchaseRow × ProductRow) :=
  st.inventory.filterMap (joinFun st)

/-- One output row of `FoodInventoryDB.get_in_stock_items`. -/
structure StockRow where
  name : String
  category : String
  subcategory : String
  storage_type : String
  content_amount : Option ℚ
  content_unit : String
  total_quantity : Int
  last_purchased : Int
  store_name : String
  shelf_life_days : Option Int
deriving Repr, DecidableEq

/-- `FoodInventoryDB.get_in_stock_items` (`db.py` lines 182-199): group the
in-stock join by `p.id`; per group report the product columns,
`SUM(pu.quantity)` over the joined rows (one addend per in-stock inventory
row), and `MAX(pu.purchased_at)`; the bare `pu.store_name` column and the
bare `ORDER BY pu.purchased_at DESC` take their value from one unspecified
row of the group (modelled as the first row of the group). -/
def get_in_stock_rows (st : DBState) : List StockRow :=
  let joined := inStockJoined st
  let keys := (joined.map (fun e => e.2.2.id)).dedup
  keys.filterMap (fun pid =>
    let grp := joined.filter (fun e => e.2.2.id == pid)
    match grp with
    | [] => none
    | e :: _ =>
      some {
        name := e.2.2.name
        category := e.2.2.category
        subcategory := e.2.2.subcategory
        storage_type := e.2.2.storage_type
        content_amount := e.2.2.content_amount
        content_unit := e.2.2.content_unit
        total_quantity := (grp.map (fun g => g.2.1.quantity)).sum
        last_purchased := (grp.map (fun g => g.2.1.purchased_at)).foldl max
          e.2.1.purchased_at
        store_name := e.2.1.store_name
        shelf_life_days := e.2.2.shelf_life_days })

/-- The full query: the grouped rows, sorted by the `ORDER BY` clause. -/
def get_in_stock_items (st : DBState) : List StockRow :=
  (get_in_stock_rows st).mergeSort (fun a b => b.last_purchased ≤ a.last_purchased)

/-- One output row of `FoodInventoryDB.get_expiring_soon`; `days_remaining`
is the REAL value SQLite computes:
`julianday(date(purchased_at, '+shelf days')) - julianday('now','localtime')`. -/
structure ExpiryRow where
  name : String
  category : String
  storage_type : String
  shelf_life_days : Int
  purchased_at : Int
  expires_at : Int
  days_remaining : ℚ
deriving Repr, DecidableEq

/-- `FoodInventoryDB.get_expiring_soon` (`db.py` lines 201-220): over the
in-stock join, keep products with a non-NULL shelf life, compute
`expires_at = purchased_at + shelf_life_days` (SQLite `date(ts, '+N days')`)
and `days_remaining = expires_at - now` (a rational: `now` carries the
fraction of the current local day), keep rows with `days_remaining ≤ days`,
and sort ascending by `days_remaining`. -/
def get_expiring_rows (st : DBState) (now : ℚ) (days : Int) : List ExpiryRow :=
  (inStockJoined st).filterMap (fun e =>
    match e.2.2.shelf_life_days with
    | some n =>
      let expires : Int := e.2.1.purchased_at + n
      let dr : ℚ := (expires : ℚ) - now
      if dr ≤ (days : ℚ) then
        some {
          name := e.2.2.name
          category := e.2.2.category
          storage_type := e.2.2.storage_type
          shelf_life_days := n
          purchased_at := e.2.1.purchased_at
          expires_at := expires
          days_remaining := dr }
      else none
    | none => none)

/-- The full query: the selected rows, sorted ascending by `days_remaining`
(the `ORDER BY` clause). -/
def get_expiring_soon (st : DBState) (now : ℚ) (days : Int) : List ExpiryRow :=
  (get_expiring_rows st now days).mergeSort
    (fun a b => a.days_remaining ≤ b.days_remaining)

/-- `FoodInventoryDB.get_search_cache` (`db.py` lines 245-253): look the name
up in the unique-keyed `search_cache` table (JSON decoding is the identity
in this model). -/
def get_search_cache (st : DBState) (product_name : String) :
    Option ProductInfo :=
  st.search_cache.lookup product_name

/-- `FoodInventoryDB.set_search_cache` (`db.py` lines 255-261):
`INSERT OR REPLACE` keyed by the unique `product_name`. -/
def set_search_cache (st : DBState) (product_name : String)
    (result : ProductInfo) : DBState :=
  { st with
    search_cache :=
      (st.search_cache.filter (fun e => !(e.1 == product_name)))
        ++ [(product_name, result)] }

/-!
Failure-injected execution of `import_receipt`, for the atomicity question.

The Python layer runs every statement on one `sqlite3` connection with the
default isolation level: DML statements accumulate in an implicit
transaction, `conn.commit()` makes everything accumulated so far durable,
and reads on the same connection see the uncommitted `pending` state.
`FailCtx` tracks the pending and the committed state, numbers the write
statements, and aborts execution (as a raised storage error would) when the
write whose index is `failAt` is reached.  What another connection — or the
caller after the failure — observes is `committed`.
-/

/-- Execution context for failure injection (see the section comment). -/
structure FailCtx where
  pending : DBState
  committed : DBState
  opIdx : Nat
  failAt : Option Nat
  failed : Bool
deriving Repr, DecidableEq

/-- Run one write statement: skipped when already failed, turns `failed` on
when its index is the injected failure point, otherwise applies to the
pending state. -/
def execW (f : DBState → DBState) (c : FailCtx) : FailCtx :=
  if c.failed then c
  else if c.failAt == some c.opIdx then
    { c with failed := true, opIdx := c.opIdx + 1 }
  else
    { c with pending := f c.pending, opIdx := c.opIdx + 1 }

/-- `conn.commit()`: make the pending state durable (no-op after a failure,
since execution never reaches it). -/
def commitW (c : FailCtx) : FailCtx :=
  if c.failed then c else { c with committed := c.pending }

/-- `upsert_product` under failure injection: the same statements as
`upsert_product`, with its own `conn.commit()` calls (`db.py` lines 107
and 124) made explicit. -/
def upsert_product_f (c : FailCtx) (name : String) (info : Option ProductInfo) :
    Nat × FailCtx :=
  match c.pending.products.find? (fun r => r.name == name) with
  | some row =>
    match info with
    | some i =>
      let c := execW (fun st =>
        { st with
          products := st.products.map (fun r =>
            if r.id == row.id then
              { r with
                category := i.category
                subcategory := i.subcategory
                content_amount := i.content_amount
                content_unit := i.content_unit
                manufacturer := i.manufacturer
                is_food := if i.is_food then 1 else 0
                storage_type := i.storage_type }
            else r) }) c
      (row.id, commitW c)
    | none => (row.id, c)
  | none =>
    let pid := c.pending.next_product_id
    let row : ProductRow :=
      match info with
      | some i =>
        { id := pid
          name := name
          category := i.category
          subcategory := i.subcategory
          content_amount := i.content_amount
          content_unit := i.content_unit
          manufacturer := i.manufacturer
          is_food := if i.is_food then 1 else 0
          storage_type := i.storage_type }
      | none => { id := pid, name := name }
    let c := execW (fun st =>
      { st with
        products := st.products ++ [row]
        next_product_id := st.next_product_id + 1 }) c
    (pid, commitW c)

/-- `import_receipt` under failure injection: the same statement sequence as
`import_receipt`, with the single final `conn.commit()` of `db.py` line 177;
all earlier commits inside the loop come from `upsert_product_f`.  Returns
`none` for the count when the injected storage failure was hit (the Python
call raises), and the final context, whose `committed` field is the state
any later observer sees. -/
def import_receipt_f (st : DBState) (receipt : ReceiptProducts)
    (product_infos : List (String × ProductInfo)) (failAt : Option Nat) :
    Option Int × FailCtx :=
  let c0 : FailCtx :=
    { pending := st, committed := st, opIdx := 0, failAt := failAt,
      failed := false }
  if is_receipt_imported st receipt.receipt_id then (some 0, c0)
  else
    let res := receipt.products.foldl (fun (acc : Int × FailCtx) product =>
      let info := product_infos.lookup product.name
      let (product_id, c1) := upsert_product_f acc.2 product.name info
      let purchase_id := c1.pending.next_purchase_id
      let c2 := execW (fun st =>
        { st with
          purchases := st.purchases ++ [{
            id := purchase_id
            product_id := product_id
            receipt_id := receipt.receipt_id
            store_name := receipt.store_name
            price := product.price
            quantity := product.quantity
            discount := product.discount
            purchased_at := receipt.purchased_at }]
          next_purchase_id := purchase_id + 1 }) c1
      let c3 :=
        (List.range product.quantity.toNat).foldl (fun c _ =>
          execW (fun st =>
            { st with
              inventory := st.inventory ++ [{
                id := st.next_inventory_id
                purchase_id := purchase_id }]
              next_inventory_id := st.next_inventory_id + 1 }) c) c2
      (acc.1 + 1, c3)) (0, c0)
    let c := commitW res.2
    (if c.failed then none else some res.1, c)

/-!
Embedding of `searcher.py`: the keyword rule table, the non-food denylist,
the local keyword matcher and the cache-first cascade
`search_product_info`.  The Google Custom Search step performs network I/O
and is modelled as an oracle parameter `google : String → Option ProductInfo`
(`None` covers missing credentials, request failure, decode failure and the
empty-items case alike, all of which make `_search_google` return `None`).
The cascade is instrumented with two booleans recording whether the rule
table (step 2) and the external search (step 3) were reached, which is the
observable the spec's call-count test double would count.
-/

/-- Python `kw in name` substring test. -/
def strIn (kw s : String) : Bool := decide (List.IsInfix kw.data s.data)

/-- The attribute dict of one `KEYWORD_RULES` entry; `is_food` is only
present on the non-food rules (`attrs.get("is_food", True)` defaults it)
and `shelf_life_days` is absent on those same rules. -/
structure RuleAttrs where
  category : String
  subcategory : String
  storage_type : String
  shelf_life_days : Option Int := none
  is_food : Option Bool := none
deriving Repr, DecidableEq

set_option maxHeartbeats 2000000 in
/-- `KEYWORD_RULES` from `searcher.py` lines 16-113, in source order:
keyword list → attribute template. -/
def KEYWORD_RULES : List (List String × RuleAttrs) := [
  (["牛乳", "ﾐﾙｸ", "ミルク"], { category := "飲料", subcategory := "牛乳・乳飲料", storage_type := "冷蔵", shelf_life_days := some 7 }),
  (["豆乳"], { category := "飲料", subcategory := "豆乳", storage_type := "常温", shelf_life_days := some 180 }),
  (["ヨーグルト", "ﾖｰｸﾞﾙﾄ"], { category := "乳製品", subcategory := "ヨーグルト", storage_type := "冷蔵", shelf_life_days := some 14 }),
  (["チーズ", "ﾁｰｽﾞ"], { category := "乳製品", subcategory := "チーズ", storage_type := "冷蔵", shelf_life_days := some 30 }),
  (["ジュース", "ｼﾞｭｰｽ"], { category := "飲料", subcategory := "ジュース", storage_type := "常温", shelf_life_days := some 270 }),
  (["お茶", "緑茶", "麦茶", "ほうじ茶", "ｵﾁｬ", "ﾘｮｸﾁｬ"], { category := "飲料", subcategory := "茶系飲料", storage_type := "常温", shelf_life_days := some 270 }),
  (["コーヒー", "ｺｰﾋｰ", "珈琲"], { category := "飲料", subcategory := "コーヒー", storage_type := "常温", shelf_life_days := some 270 }),
  (["ミネラルウォーター", "ﾐﾈﾗﾙｳｫｰﾀｰ", "天然水", "水 "], { category := "飲料", subcategory := "水", storage_type := "常温", shelf_life_days := some 730 }),
  (["ビール", "ﾋﾞｰﾙ", "発泡酒"], { category := "酒類", subcategory := "ビール系", storage_type := "常温", shelf_life_days := some 270 }),
  (["ワイン", "ﾜｲﾝ"], { category := "酒類", subcategory := "ワイン", storage_type := "常温", shelf_life_days := some 730 }),
  (["チューハイ", "ﾁｭｰﾊｲ", "酎ハイ", "サワー", "ｻﾜｰ"], { category := "酒類", subcategory := "チューハイ", storage_type := "常温", shelf_life_days := some 365 }),
  (["鶏肉", "鶏むね", "鶏もも", "ささみ", "ﾁｷﾝ", "チキン", "とりにく"], { category := "肉類", subcategory := "鶏肉", storage_type := "冷蔵", shelf_life_days := some 3 }),
  (["豚肉", "豚バラ", "豚ロース", "豚こま", "ﾌﾞﾀ", "ぶたにく", "豚ひき"], { category := "肉類", subcategory := "豚肉", storage_type := "冷蔵", shelf_life_days := some 3 }),
  (["牛肉", "牛バラ", "牛ロース", "牛こま", "ｷﾞｭｳ", "牛ひき"], { category := "肉類", subcategory := "牛肉", storage_type := "冷蔵", shelf_life_days := some 3 }),
  (["合挽", "合びき", "ひき肉", "ﾐﾝﾁ", "ミンチ"], { category := "肉類", subcategory := "ひき肉", storage_type := "冷蔵", shelf_life_days := some 2 }),
  (["ハム", "ﾊﾑ"], { category := "肉類", subcategory := "ハム・ソーセージ", storage_type := "冷蔵", shelf_life_days := some 14 }),
  (["ソーセージ", "ｿｰｾｰｼﾞ", "ウインナー", "ｳｲﾝﾅｰ", "ウィンナー"], { category := "肉類", subcategory := "ハム・ソーセージ", storage_type := "冷蔵", shelf_life_days := some 14 }),
  (["ベーコン", "ﾍﾞｰｺﾝ"], { category := "肉類", subcategory := "ベーコン", storage_type := "冷蔵", shelf_life_days := some 14 }),
  (["鮭", "サーモン", "ｻｰﾓﾝ", "しゃけ"], { category := "魚介類", subcategory := "鮭・サーモン", storage_type := "冷蔵", shelf_life_days := some 2 }),
  (["まぐろ", "マグロ", "ﾏｸﾞﾛ", "鮪"], { category := "魚介類", subcategory := "まぐろ", storage_type := "冷蔵", shelf_life_days := some 2 }),
  (["えび", "エビ", "ｴﾋﾞ", "海老"], { category := "魚介類", subcategory := "えび", storage_type := "冷蔵", shelf_life_days := some 2 }),
  (["刺身", "さしみ", "ｻｼﾐ"], { category := "魚介類", subcategory := "刺身", storage_type := "冷蔵", shelf_life_days := some 1 }),
  (["ちくわ", "チクワ", "ﾁｸﾜ"], { category := "魚介類", subcategory := "練り物", storage_type := "冷蔵", shelf_life_days := some 7 }),
  (["かまぼこ", "蒲鉾", "ｶﾏﾎﾞｺ"], { category := "魚介類", subcategory := "練り物", storage_type := "冷蔵", shelf_life_days := some 7 }),
  (["キャベツ", "ｷｬﾍﾞﾂ"], { category := "野菜", subcategory := "葉物", storage_type := "冷蔵", shelf_life_days := some 7 }),
  (["レタス", "ﾚﾀｽ"], { category := "野菜", subcategory := "葉物", storage_type := "冷蔵", shelf_life_days := some 5 }),
  (["ほうれん草", "ﾎｳﾚﾝｿｳ", "ほうれんそう"], { category := "野菜", subcategory := "葉物", storage_type := "冷蔵", shelf_life_days := some 4 }),
  (["トマト", "ﾄﾏﾄ"], { category := "野菜", subcategory := "果菜", storage_type := "冷蔵", shelf_life_days := some 7 }),
  (["きゅうり", "キュウリ", "ｷｭｳﾘ"], { category := "野菜", subcategory := "果菜", storage_type := "冷蔵", shelf_life_days := some 5 }),
  (["にんじん", "人参", "ﾆﾝｼﾞﾝ"], { category := "野菜", subcategory := "根菜", storage_type := "冷蔵", shelf_life_days := some 14 }),
  (["大根", "ﾀﾞｲｺﾝ", "だいこん"], { category := "野菜", subcategory := "根菜", storage_type := "冷蔵", shelf_life_days := some 10 }),
  (["じゃがいも", "ジャガイモ", "ﾊﾞﾚｲｼｮ", "ばれいしょ", "馬鈴薯", "ポテト"], { category := "野菜", subcategory := "根菜", storage_type := "常温", shelf_life_days := some 30 }),
  (["玉ねぎ", "たまねぎ", "タマネギ", "ﾀﾏﾈｷﾞ", "玉葱"], { category := "野菜", subcategory := "根菜", storage_type := "常温", shelf_life_days := some 60 }),
  (["もやし", "モヤシ", "ﾓﾔｼ"], { category := "野菜", subcategory := "もやし", storage_type := "冷蔵", shelf_life_days := some 3 }),
  (["ねぎ", "ネギ", "ﾈｷﾞ", "長ねぎ"], { category := "野菜", subcategory := "ねぎ", storage_type := "冷蔵", shelf_life_days := some 7 }),
  (["バナナ", "ﾊﾞﾅﾅ"], { category := "果物", subcategory := "バナナ", storage_type := "常温", shelf_life_days := some 5 }),
  (["りんご", "リンゴ", "ﾘﾝｺﾞ", "林檎"], { category := "果物", subcategory := "りんご", storage_type := "冷蔵", shelf_life_days := some 30 }),
  (["みかん", "ミカン", "ﾐｶﾝ"], { category := "果物", subcategory := "みかん", storage_type := "常温", shelf_life_days := some 14 }),
  (["豆腐", "とうふ", "ﾄｳﾌ"], { category := "大豆製品", subcategory := "豆腐", storage_type := "冷蔵", shelf_life_days := some 5 }),
  (["納豆", "なっとう", "ﾅｯﾄｳ"], { category := "大豆製品", subcategory := "納豆", storage_type := "冷蔵", shelf_life_days := some 7 }),
  (["油揚", "あぶらあげ", "ｱﾌﾞﾗｱｹﾞ"], { category := "大豆製品", subcategory := "油揚げ", storage_type := "冷蔵", shelf_life_days := some 5 }),
  (["たまご", "卵", "玉子", "ﾀﾏｺﾞ", "エッグ"], { category := "卵", subcategory := "鶏卵", storage_type := "冷蔵", shelf_life_days := some 14 }),
  (["食パン", "ｼｮｸﾊﾟﾝ"], { category := "パン", subcategory := "食パン", storage_type := "常温", shelf_life_days := some 4 }),
  (["パン", "ﾊﾟﾝ", "ロールパン", "クロワッサン"], { category := "パン", subcategory := "パン", storage_type := "常温", shelf_life_days := some 3 }),
  (["米 ", "こめ", "ｺﾒ", "お米", "白米", "無洗米"], { category := "米", subcategory := "白米", storage_type := "常温", shelf_life_days := some 90 }),
  (["うどん", "ｳﾄﾞﾝ"], { category := "麺類", subcategory := "うどん", storage_type := "冷蔵", shelf_life_days := some 5 }),
  (["そば", "蕎麦", "ｿﾊﾞ"], { category := "麺類", subcategory := "そば", storage_type := "冷蔵", shelf_life_days := some 5 }),
  (["ラーメン", "ﾗｰﾒﾝ", "らーめん"], { category := "麺類", subcategory := "ラーメン", storage_type := "常温", shelf_life_days := some 240 }),
  (["パスタ", "ﾊﾟｽﾀ", "スパゲティ", "ｽﾊﾟｹﾞﾃｨ"], { category := "麺類", subcategory := "パスタ", storage_type := "常温", shelf_life_days := some 1095 }),
  (["チョコ", "ﾁｮｺ"], { category := "菓子", subcategory := "チョコレート", storage_type := "常温", shelf_life_days := some 180 }),
  (["クッキー", "ｸｯｷｰ", "ビスケット", "ﾋﾞｽｹｯﾄ"], { category := "菓子", subcategory := "クッキー・ビスケット", storage_type := "常温", shelf_life_days := some 180 }),
  (["ポテトチップ", "ﾎﾟﾃﾄﾁｯﾌﾟ", "ポテチ"], { category := "菓子", subcategory := "スナック菓子", storage_type := "常温", shelf_life_days := some 120 }),
  (["せんべい", "煎餅", "ｾﾝﾍﾞｲ"], { category := "菓子", subcategory := "米菓", storage_type := "常温", shelf_life_days := some 180 }),
  (["アイス", "ｱｲｽ", "アイスクリーム"], { category := "菓子", subcategory := "アイスクリーム", storage_type := "冷凍", shelf_life_days := some 365 }),
  (["ガム", "ｶﾞﾑ"], { category := "菓子", subcategory := "ガム", storage_type := "常温", shelf_life_days := some 365 }),
  (["グミ", "ｸﾞﾐ"], { category := "菓子", subcategory := "グミ", storage_type := "常温", shelf_life_days := some 180 }),
  (["飴", "あめ", "ｱﾒ", "キャンディ"], { category := "菓子", subcategory := "飴・キャンディ", storage_type := "常温", shelf_life_days := some 365 }),
  (["醤油", "しょうゆ", "ｼｮｳﾕ"], { category := "調味料", subcategory := "醤油", storage_type := "常温", shelf_life_days := some 365 }),
  (["味噌", "みそ", "ﾐｿ"], { category := "調味料", subcategory := "味噌", storage_type := "冷蔵", shelf_life_days := some 180 }),
  (["マヨネーズ", "ﾏﾖﾈｰｽﾞ", "マヨ"], { category := "調味料", subcategory := "マヨネーズ", storage_type := "冷蔵", shelf_life_days := some 90 }),
  (["ケチャップ", "ｹﾁｬｯﾌﾟ"], { category := "調味料", subcategory := "ケチャップ", storage_type := "冷蔵", shelf_life_days := some 90 }),
  (["ソース", "ｿｰｽ"], { category := "調味料", subcategory := "ソース", storage_type := "常温", shelf_life_days := some 365 }),
  (["砂糖", "ｻﾄｳ", "さとう"], { category := "調味料", subcategory := "砂糖", storage_type := "常温", shelf_life_days := some 1095 }),
  (["塩 ", "しお", "ｼｵ"], { category := "調味料", subcategory := "塩", storage_type := "常温", shelf_life_days := some 1825 }),
  (["酢 ", "ｽ"], { category := "調味料", subcategory := "酢", storage_type := "常温", shelf_life_days := some 730 }),
  (["ドレッシング", "ﾄﾞﾚｯｼﾝｸﾞ"], { category := "調味料", subcategory := "ドレッシング", storage_type := "冷蔵", shelf_life_days := some 60 }),
  (["冷凍", "ﾚｲﾄｳ"], { category := "冷凍食品", subcategory := "冷凍食品", storage_type := "冷凍", shelf_life_days := some 365 }),
  (["カップ", "ｶｯﾌﾟ"], { category := "インスタント", subcategory := "カップ麺", storage_type := "常温", shelf_life_days := some 180 }),
  (["インスタント", "ｲﾝｽﾀﾝﾄ", "即席"], { category := "インスタント", subcategory := "インスタント食品", storage_type := "常温", shelf_life_days := some 180 }),
  (["缶", "ｶﾝ"], { category := "缶詰・瓶詰", subcategory := "缶詰", storage_type := "常温", shelf_life_days := some 1095 }),
  (["弁当", "ﾍﾞﾝﾄｳ", "べんとう"], { category := "惣菜", subcategory := "弁当", storage_type := "冷蔵", shelf_life_days := some 1 }),
  (["おにぎり", "ｵﾆｷﾞﾘ"], { category := "惣菜", subcategory := "おにぎり", storage_type := "常温", shelf_life_days := some 1 }),
  (["サンドイッチ", "ｻﾝﾄﾞｲｯﾁ", "サンド"], { category := "惣菜", subcategory := "サンドイッチ", storage_type := "冷蔵", shelf_life_days := some 1 }),
  (["寿司", "すし", "ｽｼ"], { category := "惣菜", subcategory := "寿司", storage_type := "冷蔵", shelf_life_days := some 1 }),
  (["惣菜", "ｿｳｻﾞｲ", "サラダ", "ｻﾗﾀﾞ", "コロッケ", "ｺﾛｯｹ", "天ぷら", "ﾃﾝﾌﾟﾗ", "唐揚", "からあげ"], { category := "惣菜", subcategory := "惣菜", storage_type := "冷蔵", shelf_life_days := some 1 }),
  (["ティッシュ", "ﾃｨｯｼｭ"], { category := "日用品", subcategory := "ティッシュ", storage_type := "常温", is_food := some false }),
  (["トイレットペーパー", "ﾄｲﾚｯﾄﾍﾟｰﾊﾟｰ", "ﾄｲﾚｯﾄ"], { category := "日用品", subcategory := "トイレットペーパー", storage_type := "常温", is_food := some false }),
  (["洗剤", "ｾﾝｻﾞｲ"], { category := "日用品", subcategory := "洗剤", storage_type := "常温", is_food := some false }),
  (["シャンプー", "ｼｬﾝﾌﾟｰ", "リンス", "ﾘﾝｽ", "コンディショナー"], { category := "日用品", subcategory := "ヘアケア", storage_type := "常温", is_food := some false }),
  (["歯ブラシ", "ﾊﾌﾞﾗｼ", "歯磨", "ﾊﾐｶﾞｷ"], { category := "日用品", subcategory := "オーラルケア", storage_type := "常温", is_food := some false }),
  (["レジ袋", "ﾚｼﾞﾌﾞｸﾛ", "ﾏｲﾊﾞｯｸﾞ", "袋"], { category := "その他", subcategory := "レジ袋", storage_type := "常温", is_food := some false })]

/-- `NON_FOOD_KEYWORDS` from `searcher.py` lines 116-122. -/
def NON_FOOD_KEYWORDS : List String := [
  "ティッシュ", "ﾃｨｯｼｭ", "トイレ", "ﾄｲﾚ", "洗剤", "ｾﾝｻﾞｲ",
  "シャンプー", "ｼｬﾝﾌﾟｰ", "石鹸", "ｾｯｹﾝ", "歯ブラシ", "ﾊﾌﾞﾗｼ",
  "電池", "ﾃﾞﾝﾁ", "ゴミ袋", "ｺﾞﾐﾌﾞｸﾛ", "ラップ", "ﾗｯﾌﾟ",
  "アルミホイル", "ｱﾙﾐﾎｲﾙ", "キッチンペーパー",
  "レジ袋", "ﾚｼﾞﾌﾞｸﾛ", "マスク", "ﾏｽｸ"]

/-- `_match_local_keywords` (`searcher.py` lines 165-176): scan the rules in
table order (and the keywords of a rule in listed order); on the first
keyword contained in the name, build a `ProductInfo` from `attrs.get` with
the dataclass defaults.  Note that the rule's `shelf_life_days` value is not
read here and `ProductInfo` has no such field: the shelf life of the
template is dropped. -/
def match_local_keywords (product_name : String) : Option ProductInfo :=
  KEYWORD_RULES.findSome? (fun rule =>
    if rule.1.any (fun kw => strIn kw product_name) then
      some {
        category := rule.2.category
        subcategory := rule.2.subcategory
        storage_type := rule.2.storage_type
        is_food := rule.2.is_food.getD true }
    else none)

/-- Result of one instrumented `search_product_info` call: the returned
`ProductInfo`, the database state after the call, and whether steps 2
(local rule table) and 3 (external search) were reached. -/
structure SearchOutcome where
  info : ProductInfo
  st : DBState
  usedLocalRules : Bool
  usedGoogle : Bool
deriving Repr, DecidableEq

/-- `search_product_info` (`searcher.py` lines 125-162): cache hit returns
the decoded cached dict at once (`if cached:` — a stored dict always has
seven keys, hence is truthy exactly when the entry exists); otherwise the
rule table, then the external search oracle, then the non-food-keyword
fallback, each writing its result to the cache before returning. -/
def search_product_info (product_name : String) (st : DBState)
    (google : String → Option ProductInfo) : SearchOutcome :=
  match get_search_cache st product_name with
  | some cached =>
    { info := cached, st := st, usedLocalRules := false, usedGoogle := false }
  | none =>
    match match_local_keywords product_name with
    | some info =>
      { info := info, st := set_search_cache st product_name info,
        usedLocalRules := true, usedGoogle := false }
    | none =>
      match google product_name with
      | some info =>
        { info := info, st := set_search_cache st product_name info,
          usedLocalRules := true, usedGoogle := true }
      | none =>
        let is_food := !(NON_FOOD_KEYWORDS.any (fun kw => strIn kw product_name))
        let info : ProductInfo := { is_food := is_food }
        { info := info, st := set_search_cache st product_name info,
          usedLocalRules := true, usedGoogle := true }

/-!
Embedding of `parser.py`.  JSON-like Python values are modelled by `PyVal`
(floats as rationals).  Attribute errors — `.get` on a non-dict, `.strip()`
on a non-string — are modelled with `Except String`, because the
`try/except` of `_parse_from_raw` covers only the four nesting lookups,
not the line-item loop.  The receipt text lines carry no newline
characters, so the `.` of the regular expressions matches every character.
-/

/-- A Python value as found in the decoded receipt JSON payload. -/
inductive PyVal where
  | pnone
  | pbool (b : Bool)
  | pint (n : Int)
  | pfloat (q : ℚ)
  | pstr (s : String)
  | plist (xs : List PyVal)
  | pdict (entries : List (String × PyVal))

/-- Python truthiness of a `PyVal`. -/
def pyTruthy : PyVal → Bool
  | .pnone => false
  | .pbool b => b
  | .pint n => !(n == 0)
  | .pfloat q => !(q == 0)
  | .pstr s => !(s == "")
  | .plist xs => !xs.isEmpty
  | .pdict d => !d.isEmpty

/-- Python `v.get(key)`: `AttributeError` on a non-dict receiver, `None`
(here `Option.none`) when the key is absent. -/
def pyGet : PyVal → String → Except String (Option PyVal)
  | .pdict entries, key => .ok (entries.lookup key)
  | _, _ => .error "AttributeError"

/-- Python `v.get(key, default)`. -/
def pyGetD (v : PyVal) (key : String) (dflt : PyVal) : Except String PyVal := do
  let o ← pyGet v key
  pure (o.getD dflt)

/-- Value of a list of decimal digit characters. -/
def digitsVal (ds : List Char) : Nat :=
  ds.foldl (fun a c => a * 10 + (c.toNat - 48)) 0

/-- Python `float(s)` on the fragment of its grammar the receipts exercise:
an optional sign, then digits with an optional fractional part (at least
one digit overall); anything else — in particular non-numeric text — is a
`ValueError`, i.e. `none`.  (Exponents, `inf`/`nan`, underscores and
surrounding whitespace, which no receipt field uses, are outside the
modelled fragment.)  The parsed value is `±(ip + 0.f)` with `0 ≤ 0.f < 1`;
since `int()` truncates toward zero, `int(float(s))` is `±ip`, so only the
sign and the integer-part value are returned. -/
def pyDecParse (s : String) : Option (Bool × Nat) :=
  let cs := s.data
  let sgn : Bool × List Char :=
    match cs with
    | '-' :: r => (true, r)
    | '+' :: r => (false, r)
    | _ => (false, cs)
  let (ip, rest) := sgn.2.span (fun c => c.isDigit)
  match rest with
  | [] => if ip.isEmpty then none else some (sgn.1, digitsVal ip)
  | '.' :: r =>
    let (fp, rest2) := r.span (fun c => c.isDigit)
    if rest2.isEmpty && !(ip.isEmpty && fp.isEmpty) then
      some (sgn.1, digitsVal ip)
    else none
  | _ => none

/-- Truncation toward zero, what Python `int(float)` does. -/
def ratTrunc (q : ℚ) : Int := Int.tdiv q.num q.den

/-- `_to_int` (`parser.py` lines 181-188):
`int(float(str(value).replace(",", "").replace("¥", "")))` with every
`ValueError`/`TypeError` mapped to `0`.  For an `int` the round trip is the
identity; for a `float` it truncates toward zero; for `None`, lists, dicts
and booleans (`str(True)` is not a float literal) the result is `0`;
a string is parsed after all `,` and `¥` characters are removed. -/
def pyToInt (v : PyVal) : Int :=
  match v with
  | .pnone => 0
  | .pbool _ => 0
  | .pint n => n
  | .pfloat q => ratTrunc q
  | .pstr s =>
    match pyDecParse ⟨s.data.filter (fun c => !(c == ',') && !(c == '¥'))⟩ with
    | some r => if r.1 then -(r.2 : Int) else (r.2 : Int)
    | none => 0
  | .plist _ => 0
  | .pdict _ => 0

/-- `raw.get("results", {}).get("DigitalReceipt", {}) ... .get("LineItem", [])`
(`parser.py` lines 45-48): the chained lookups inside the `try` block. -/
def extractLineItems (raw : PyVal) : Except String PyVal := do
  let results ← pyGetD raw "results" (.pdict [])
  let receipt ← pyGetD results "DigitalReceipt" (.pdict [])
  let txn ← pyGetD receipt "Transaction" (.pdict [])
  let retail ← pyGetD txn "RetailTransaction" (.pdict [])
  pyGetD retail "LineItem" (.plist [])

/-- Python `str.strip()`: drop leading and trailing whitespace. -/
def pyStrip (s : String) : String :=
  ⟨((s.data.dropWhile Char.isWhitespace).reverse.dropWhile
      Char.isWhitespace).reverse⟩

/-- The body of the `for item in line_items` loop of `_parse_from_raw`
(`parser.py` lines 55-111); `none` is a `continue`, an error is an uncaught
`AttributeError` (the `try` block ended at line 50). -/
def parseRawItem (item : PyVal) : Except String (Option ParsedProduct) := do
  let sale := (← pyGet item "Sale").getD .pnone
  if !(pyTruthy sale) then return none
  let desc := (← pyGet sale "ItemDescription").getD .pnone
  let name : PyVal :=
    match desc with
    | .pdict d => (d.lookup "#Value").getD (.pstr "")
    | .pstr s => .pstr s
    | _ => .pstr ""
  if !(pyTruthy name) then return none
  let ext := (← pyGet sale "ExtendedAmount").getD .pnone
  let price : Int :=
    match ext with
    | .pdict d => pyToInt ((d.lookup "#Value").getD (.pstr "0"))
    | .pnone => 0
    | v => pyToInt v
  let qv := (← pyGet sale "Quantity").getD .pnone
  let quantity : Int :=
    match qv with
    | .pdict d =>
      let q := pyToInt ((d.lookup "#Value").getD (.pstr "1"))
      if q == 0 then 1 else q
    | .pnone => 1
    | v =>
      let q := pyToInt v
      if q == 0 then 1 else q
  let disc := (← pyGet sale "Discount").getD .pnone
  let discount : Int :=
    if pyTruthy disc then
      let disc_amount : PyVal :=
        match disc with
        | .pdict d => (d.lookup "Amount").getD .pnone
        | _ => .pnone
      match disc_amount with
      | .pdict d => pyToInt ((d.lookup "#Value").getD (.pstr "0"))
      | .pnone => 0
      | v => pyToInt v
    else 0
  let iid := (← pyGet sale "ItemID").getD .pnone
  let barcode : Option String :=
    match iid with
    | .pdict d =>
      match d.lookup "#Value" with
      | some (.pstr s) => some s
      | _ => none
    | .pstr s => some s
    | _ => none
  let nameS ←
    match name with
    | .pstr s => Except.ok (pyStrip s)
    | _ => Except.error "AttributeError"
  return some {
    name := nameS, price := price, quantity := quantity,
    discount := discount, barcode := barcode }

/-- The loop of `_parse_from_raw`, appending each accepted item. -/
def parseRawItems : List PyVal → Except String (List ParsedProduct)
  | [] => .ok []
  | item :: rest => do
    let p? ← parseRawItem item
    let ps ← parseRawItems rest
    pure (match p? with | some p => p :: ps | none => ps)

/-- `_parse_from_raw` (`parser.py` lines 40-113): the guarded nesting
extraction (whose `AttributeError`/`TypeError` yields `[]`), the
non-list-to-singleton wrap, then the item loop, whose exceptions escape. -/
def parse_from_raw (raw : PyVal) : Except String (List ParsedProduct) :=
  match extractLineItems raw with
  | .error _ => .ok []
  | .ok line_items =>
    let items :=
      match line_items with
      | .plist xs => xs
      | v => [v]
    parseRawItems items

/-!
The textual fallback `_parse_from_lines` and its three regular expressions.
Each pattern is implemented as a deterministic matcher; determinism is
justified case by case in the doc comments: wherever the regex engine could
backtrack, the neighbouring character classes (whitespace / digits / fixed
glyphs) are disjoint, so at most one parse exists.
-/

/-- The single-quote character, used by the `PrintDouble('...')` pattern. -/
def squote : Char := Char.ofNat 39

/-- The promotion glyphs `[※＊*]` of the price patterns. -/
def isPromo (c : Char) : Bool := c == '※' || c == '＊' || c == '*'

/-- The currency glyphs `[¥\\]` of the price patterns. -/
def isYen (c : Char) : Bool := c == '¥' || c == '\\'

/-- Matcher for `\s{2,}[¥\\]?(\d{1,6})[※＊*]?\s*$`, the tail of
`product_pattern` (`parser.py` line 129), applied to the characters after a
candidate name: a maximal whitespace run of length ≥ 2 (the greedy `\s{2,}`
cannot give characters back, since neither `[¥\\]?` nor `\d` matches
whitespace), an optional currency glyph, a maximal digit run that must have
length 1-6 (a longer run can never match: whatever `\d{1,6}` keeps, the next
digit fails `[※＊*]?\s*$`), an optional promotion glyph, then only
whitespace to the end.  Returns the digits of the price group. -/
def tailPriceMatch (cs : List Char) : Option String :=
  let (ws, r1) := cs.span (fun c => c.isWhitespace)
  if ws.length < 2 then none
  else
    let r2 := match r1 with
      | c :: r => if isYen c then r else c :: r
      | [] => []
    let (ds, r3) := r2.span (fun c => c.isDigit)
    if ds.length < 1 || 6 < ds.length then none
    else
      let r4 := match r3 with
        | c :: r => if isPromo c then r else c :: r
        | [] => []
      if r4.all (fun c => c.isWhitespace) then some (String.mk ds) else none

/-- The lazy group `(.+?)` in front of a tail pattern: try the shortest
non-empty prefix first, exactly as the regex engine does; returns the group
and the tail's price digits. -/
def lazySplit (tail : List Char → Option String) :
    (acc rest : List Char) → Option (List Char × String)
  | acc, c :: rest =>
    match tail rest with
    | some ds => some (acc ++ [c], ds)
    | none => lazySplit tail (acc ++ [c]) rest
  | _, [] => none

/-- `product_pattern.match(line)` (`parser.py` lines 128-130, re.match of
`^(.+?)\s{2,}[¥\\]?(\d{1,6})[※＊*]?\s*$`): anchored at both ends, name
group and price digits. -/
def productPatternMatch (line : String) : Option (String × String) :=
  (lazySplit tailPriceMatch [] line.data).map (fun r => (String.mk r.1, r.2))

/-- Matcher for the tail of `double_pattern` (`parser.py` lines 132-134)
after the lazy name group: `\s{2,}[¥\\]?(\d{1,6})[※＊*]?\s*',\s*\d+\)` —
as in `tailPriceMatch` every greedy run is forced, then the closing quote,
a comma, optional whitespace, a width number and the closing parenthesis;
the characters after `\)` are unconstrained (`re.search`). -/
def doubleTail (cs : List Char) : Option String :=
  let (ws, r1) := cs.span (fun c => c.isWhitespace)
  if ws.length < 2 then none
  else
    let r2 := match r1 with
      | c :: r => if isYen c then r else c :: r
      | [] => []
    let (ds, r3) := r2.span (fun c => c.isDigit)
    if ds.length < 1 || 6 < ds.length then none
    else
      let r4 := match r3 with
        | c :: r => if isPromo c then r else c :: r
        | [] => []
      let (_, r5) := r4.span (fun c => c.isWhitespace)
      match r5 with
      | q :: ',' :: r6 =>
        if q == squote then
          let (_, r7) := r6.span (fun c => c.isWhitespace)
          let (ds2, r8) := r7.span (fun c => c.isDigit)
          if ds2.length < 1 then none
          else
            match r8 with
            | ')' :: _ => some (String.mk ds)
            | _ => none
        else none
      | _ => none

/-- `dropPre pre cs` removes the literal prefix `pre` from `cs`, if present. -/
def dropPre : List Char → List Char → Option (List Char)
  | [], cs => some cs
  | p :: ps, c :: cs => if c == p then dropPre ps cs else none
  | _ :: _, [] => none

/-- The literal head `PrintDouble('` of `double_pattern`. -/
def printDoubleHead : List Char := "PrintDouble(".data ++ [squote]

/-- `double_pattern.search(line)`: scan left to right for an occurrence of
the literal head followed by a lazy name group and `doubleTail`; a position
where the head matches but the rest fails is skipped, as the regex engine
then resumes at the next starting position. -/
def doubleSearch : List Char → Option (String × String)
  | [] => none
  | c :: rest =>
    match dropPre printDoubleHead (c :: rest) with
    | some r =>
      match lazySplit doubleTail [] r with
      | some g => some (String.mk g.1, g.2)
      | none => doubleSearch rest
    | none => doubleSearch rest

/-- The discount keywords `(?:値引|割引|ﾜﾘﾋﾞｷ|ｸｰﾎﾟﾝ)` in alternation
order. -/
def discountKeywords : List (List Char) :=
  ["値引".data, "割引".data, "ﾜﾘﾋﾞｷ".data, "ｸｰﾎﾟﾝ".data]

/-- The characters of `[-ー]`. -/
def isMinus (c : Char) : Bool := c == '-' || c == 'ー'

/-- Matcher for `.*?[-ー](\d{1,6})` after a matched keyword: the lazy `.*?`
takes the leftmost minus sign that is followed by at least one digit (a
minus with no digit after it makes `(\d{1,6})` fail, and the engine
backtracks `.*?` past it); the group takes at most six digits of the
following maximal digit run. -/
def minusDigits : List Char → Option String
  | [] => none
  | c :: rest =>
    if isMinus c then
      let (ds, _) := rest.span (fun d => d.isDigit)
      if ds.length < 1 then minusDigits rest
      else some (String.mk (ds.take 6))
    else minusDigits rest

/-- `discount_pattern.search(line)` (`parser.py` lines 136-138): leftmost
starting position at which some alternation branch matches and its
continuation succeeds; branches are tried in alternation order at each
position. -/
def discountSearch : List Char → Option String
  | [] => none
  | c :: rest =>
    match discountKeywords.findSome? (fun kw =>
      (dropPre kw (c :: rest)).bind minusDigits) with
    | some ds => some ds
    | none => discountSearch rest

/-- `_is_skip_line` (`parser.py` lines 171-178). -/
def is_skip_line (name : String) : Bool :=
  (["合計", "小計", "お預り", "お釣", "税込", "税抜",
    "ポイント", "WAON", "ワオン", "現金", "クレジット",
    "お買上", "点数", "外税", "内税", "非課税"] : List String).any
    (fun w => strIn w name)

/-- The body of the `for line in lines` loop of `_parse_from_lines`
(`parser.py` lines 140-166): skip bitmap/barcode control lines, try the
`PrintDouble` pattern, then the plain product pattern (each accepted only
with a non-empty stripped name, a positive price and no denylist word),
otherwise apply a discount line to the last accepted product, if any. -/
def parseLinesStep (products : List ParsedProduct) (line : String) :
    List ParsedProduct :=
  if strIn "PrintBitmap" line || strIn "PrintBarCode" line then products
  else
    match doubleSearch line.data with
    | some g =>
      let name := pyStrip g.1
      let price := pyToInt (.pstr g.2)
      if !(name == "") && decide (0 < price) && !(is_skip_line name) then
        products ++ [{ name := name, price := price }]
      else products
    | none =>
      match productPatternMatch line with
      | some g =>
        let name := pyStrip g.1
        let price := pyToInt (.pstr g.2)
        if !(name == "") && decide (0 < price) && !(is_skip_line name) then
          products ++ [{ name := name, price := price }]
        else products
      | none =>
        match discountSearch line.data with
        | some ds =>
          match products.getLast? with
          | some last =>
            products.dropLast ++ [{ last with discount := pyToInt (.pstr ds) }]
          | none => products
        | none => products

/-- `_parse_from_lines` (`parser.py` lines 116-168). -/
def parse_from_lines (lines : List String) : List ParsedProduct :=
  lines.foldl parseLinesStep []

/-- `ReceiptSummary` dataclass from `receipt/client.py`; `datetime` is
modelled as the day number of the receipt timestamp. -/
structure ReceiptSummary where
  receipt_id : String
  store_name : String
  store_code : String := ""
  datetime : Int
  total : Option String := none
  workstation_id : Option String := none

/-- `ReceiptDetail` dataclass from `receipt/client.py`; the binary
`images` map is irrelevant to parsing and omitted. -/
structure ReceiptDetail where
  receipt_id : String
  lines : List String := []
  raw : Option PyVal := none

/-- `parse_receipt` (`parser.py` lines 11-37): structured stage when
`detail.raw` is truthy (its uncaught exceptions propagate), textual
fallback when the structured stage yields no items. -/
def parse_receipt (detail : ReceiptDetail) (summary : ReceiptSummary) :
    Except String ReceiptProducts := do
  let products ←
    match detail.raw with
    | some raw => if pyTruthy raw then parse_from_raw raw else pure []
    | none => pure []
  let products := if products.isEmpty then parse_from_lines detail.lines
    else products
  pure {
    receipt_id := detail.receipt_id
    store_name := summary.store_name
    purchased_at := summary.datetime
    products := products }

/-!
Specification-side definitions (written from the claims' language, to be
compared with what the code computes) and the concrete inputs used by the
counterexamples and witnesses below.
-/

/-- The purchase row an inventory unit references. -/
def purchaseOfUnit (st : DBState) (u : InventoryRow) : Option PurchaseRow :=
  st.purchases.find? (fun pu => pu.id == u.purchase_id)

/-- All inventory rows that reference a given purchase id. -/
def unitsRef (st : DBState) (puid : Nat) : List InventoryRow :=
  st.inventory.filter (fun u => u.purchase_id == puid)

/-- Claim-side: the in-stock inventory units belonging to product `pid`
(through their purchase's `product_id`). -/
def inStockClaimUnits (st : DBState) (pid : Nat) : List InventoryRow :=
  st.inventory.filter (fun u =>
    u.status == "in_stock" &&
      ((purchaseOfUnit st u).map (fun pu => pu.product_id == pid)).getD false)

/-- Claim-side (C4, as stated): the number of in-stock units of a product. -/
def inStockUnitCount (st : DBState) (pid : Nat) : Nat :=
  (inStockClaimUnits st pid).length

/-- Claim-side (C4, amended): each in-stock unit of the product contributes
its purchase's `quantity`. -/
def inStockQuantitySum (st : DBState) (pid : Nat) : Int :=
  ((inStockClaimUnits st pid).map (fun u =>
    ((purchaseOfUnit st u).map (fun pu => pu.quantity)).getD 0)).sum

/-- Claim-side: the purchase dates of the product's in-stock units. -/
def inStockPurchaseDates (st : DBState) (pid : Nat) : List Int :=
  (inStockClaimUnits st pid).map (fun u =>
    ((purchaseOfUnit st u).map (fun pu => pu.purchased_at)).getD 0)

/-- The purchase rows `import_receipt` writes for an item list: one row per
item, with consecutive ids from `base` and the item's price, quantity and
discount (the `product_id` of each row is supplied by the upsert and passed
in as `pids`).  Used to state the import theorems. -/
def mkPurchases (rid store : String) (pat : Int) :
    Nat → List Nat → List ParsedProduct → List PurchaseRow
  | base, pid :: pids, p :: items =>
    ⟨base, pid, rid, store, p.price, p.quantity, p.discount, pat⟩ ::
      mkPurchases rid store pat (base + 1) pids items
  | _, _, _ => []

/-- A two-item receipt (the spec's end-to-end scenario, day number 95). -/
def rcptA : ReceiptProducts :=
  { receipt_id := "R1", store_name := "S", purchased_at := 95,
    products := [{ name := "牛乳", price := 200, quantity := 1 },
                 { name := "ティッシュ", price := 150, quantity := 2 }] }

/-- The classification dict passed alongside `rcptA`. -/
def infosA : List (String × ProductInfo) := [("牛乳", { category := "飲料" })]

/-- A single-item receipt with a negative quantity, as the structured
extractor can produce (C10). -/
def rcptNeg : ReceiptProducts :=
  { receipt_id := "R2", store_name := "S", purchased_at := 95,
    products := [{ name := "謎の品", price := 100, quantity := -2 }] }

/-- C4 counterexample state: one product (id 1) with purchase 1
(quantity 2, day 10, both units in stock) and purchase 2 (quantity 1,
day 20, its unit consumed). -/
def stC4 : DBState :=
  { products := [{ id := 1, name := "milk" }],
    purchases := [{ id := 1, product_id := 1, receipt_id := "R", quantity := 2, purchased_at := 10 },
                  { id := 2, product_id := 1, receipt_id := "R2", quantity := 1, purchased_at := 20 }],
    inventory := [{ id := 1, purchase_id := 1 }, { id := 2, purchase_id := 1 },
                  { id := 3, purchase_id := 2, status := "consumed" }],
    next_product_id := 2, next_purchase_id := 3, next_inventory_id := 4 }

/-- C7 counterexample state: one in-stock unit of a product with a 3-day
shelf life, purchased on day 95 — five days before the current day 100. -/
def stC7 : DBState :=
  { products := [{ id := 1, name := "milk", shelf_life_days := some 3 }],
    purchases := [{ id := 1, product_id := 1, receipt_id := "R", quantity := 1, purchased_at := 95 }],
    inventory := [{ id := 1, purchase_id := 1 }],
    next_product_id := 2, next_purchase_id := 2, next_inventory_id := 2 }

/-- The value of `inStockJoined stC7`, spelt out. -/
def joinedC7 : List (InventoryRow × PurchaseRow × ProductRow) :=
  [(⟨1, 1, "in_stock"⟩, ⟨1, 1, "R", "", 0, 1, 0, 95⟩,
    ⟨1, "milk", "", "", none, "", "", 1, "常温", some 3⟩)]

/-- C8 failing input: a structurally well-nested payload whose `LineItem`
array contains a non-dict entry. -/
def rawBadLineItem : PyVal :=
  .pdict [("results", .pdict [("DigitalReceipt", .pdict [("Transaction",
    .pdict [("RetailTransaction", .pdict [("LineItem",
      .plist [.pstr "x"])])])])])]

/-- C9 input: one structured line item whose price token is non-numeric. -/
def rawZeroPrice : PyVal :=
  .pdict [("results", .pdict [("DigitalReceipt", .pdict [("Transaction",
    .pdict [("RetailTransaction", .pdict [("LineItem", .plist [
      .pdict [("Sale", .pdict [("ItemDescription", .pstr "りんご"),
                               ("ExtendedAmount", .pstr "abc")])]])])])])])]

/-- C10 input family: one structured line item whose `Quantity` is the
integer `q`. -/
def rawWithQty (q : Int) : PyVal :=
  .pdict [("results", .pdict [("DigitalReceipt", .pdict [("Transaction",
    .pdict [("RetailTransaction", .pdict [("LineItem", .plist [
      .pdict [("Sale", .pdict [("ItemDescription", .pstr "品X"),
                               ("ExtendedAmount", .pint 100),
                               ("Quantity", .pint q)])]])])])])])]

/-!
Theorems.  Each claim of the specification is settled by exactly one named
theorem below (plus a witness where the theorem carries hypotheses).
-/

/-- C1: the claim states that `import_receipt` is atomic — after a storage
failure no row written for the receipt remains observable.  The code is not:
`upsert_product` commits inside the per-item loop (`db.py` lines 107, 124),
so those commits also flush earlier items' purchase and inventory rows.
Concretely, importing the two-item receipt `rcptA` into an empty database
with the storage engine failing at the fifth write (the second item's
purchase INSERT) leaves both product rows, the first item's purchase row and
its inventory unit durably observable, while the call itself fails. -/
theorem C1_nonatomic_commit_leak :
    (import_receipt_f emptyDB rcptA infosA (some 4)).1 = none ∧
    (import_receipt_f emptyDB rcptA infosA (some 4)).2.failed = true ∧
    ((import_receipt_f emptyDB rcptA infosA (some 4)).2.committed.products.map
      (fun p => p.name)) = ["牛乳", "ティッシュ"] ∧
    ((import_receipt_f emptyDB rcptA infosA (some 4)).2.committed.purchases.map
      (fun pu => (pu.receipt_id, pu.quantity))) = [("R1", 1)] ∧
    (import_receipt_f emptyDB rcptA infosA (some 4)).2.committed.inventory.length
      = 1 := by
  decide

/-- C5: the claim states that a rule-table hit returns the rule's complete
template including its shelf-life days.  The matched rule for `"牛乳"` is
the first table entry, whose template carries `shelf_life_days = 7`, but
`_match_local_keywords` builds a `ProductInfo` *without* any shelf-life
field (the dataclass has none), so the shelf life of the template is
dropped — the returned record is exactly the four copied fields plus the
dataclass defaults. -/
theorem C5_shelf_life_not_returned :
    match_local_keywords "牛乳" =
      some { category := "飲料", subcategory := "牛乳・乳飲料",
             storage_type := "冷蔵", is_food := true,
             content_amount := none, content_unit := "", manufacturer := "" } ∧
    (KEYWORD_RULES.head?.map (fun r => r.1.head?)) = some (some "牛乳") ∧
    (KEYWORD_RULES.head?.map (fun r => r.2.shelf_life_days))
      = some (some 7) := by
  decide

/-- C8: the claim states `parse_receipt` never raises.  The `try/except`
of `_parse_from_raw` ends before the line-item loop, so a non-dict
`LineItem` entry raises `AttributeError` (`"x".get("Sale")`) out of
`parse_receipt`, instead of being treated as zero items with a textual
fallback. -/
theorem C8_parse_raises_on_nondict_item :
    parse_from_raw rawBadLineItem = .error "AttributeError" ∧
    parse_receipt
      { receipt_id := "D", lines := ["何か   100"], raw := some rawBadLineItem }
      { receipt_id := "D", store_name := "S", datetime := 0 }
      = .error "AttributeError" := by
  exact ⟨rfl, rfl⟩

/-- C4 counterexample: in `stC4` the product has two in-stock units (both
of the quantity-2 purchase of day 10; the day-20 purchase's unit is
consumed), yet `get_in_stock_items` reports `total_quantity = 4` — each
in-stock unit contributes its purchase's full quantity via
`SUM(pu.quantity)` over the unit join — and `last_purchased = 10`, not the
product's most recent purchase date 20. -/
theorem C4_total_quantity_counterexample :
    ((get_in_stock_items stC4).map
      (fun r => (r.name, r.total_quantity, r.last_purchased)))
      = [("milk", 4, 10)] ∧
    inStockUnitCount stC4 1 = 2 ∧
    ((4 : Int) ≠ 2) ∧
    (stC4.purchases.map (fun pu => pu.purchased_at)).max? = some 20 ∧
    ((10 : Int) ≠ 20) := by
  have h : get_in_stock_rows stC4 =
      [{ name := "milk", category := "", subcategory := "",
         storage_type := "常温", content_amount := none, content_unit := "",
         total_quantity := 4, last_purchased := 10, store_name := "",
         shelf_life_days := none }] := by decide
  have h2 : get_in_stock_items stC4 =
      [{ name := "milk", category := "", subcategory := "",
         storage_type := "常温", content_amount := none, content_unit := "",
         total_quantity := 4, last_purchased := 10, store_name := "",
         shelf_life_days := none }] := by
    unfold get_in_stock_items
    rw [h, List.mergeSort_singleton]
  refine ⟨?_, by decide, by decide, by decide, by decide⟩
  rw [h2]
  decide

/-- C7 counterexample: in `stC7` the unit was purchased on day 95 with a
3-day shelf life and the query runs at a quarter past local midnight of
day 100 (`now = 401/4`), i.e. five days after purchase: the reported
`days_remaining` is the rational `-9/4`, not the integer `-2` the claim
states — the SQL subtracts the fractional `julianday('now','localtime')`
from the midnight julian day of the expiry date. -/
theorem C7_days_remaining_fractional :
    ((get_expiring_soon stC7 (401 / 4) 3).map (fun r => r.days_remaining))
      = [-9 / 4] ∧
    (-9 / 4 : ℚ) ≠ -2 := by
  have hj : inStockJoined stC7 = joinedC7 := by decide
  have hr : get_expiring_rows stC7 (401 / 4) 3 =
      [{ name := "milk", category := "", storage_type := "常温",
         shelf_life_days := 3, purchased_at := 95, expires_at := 98,
         days_remaining := -9 / 4 }] := by
    rw [get_expiring_rows, hj]
    norm_num [List.filterMap, joinedC7]
  refine ⟨?_, by norm_num⟩
  unfold get_expiring_soon
  rw [hr, List.mergeSort_singleton]
  rfl

/-- C9 counterexample: the claim states that in both extraction stages a
line item whose (coerced) price is zero is discarded.  In the structured
stage there is no such filter: the item with unparseable price `"abc"`
(coerced to `0`) is kept in the output with `price = 0`. -/
theorem C9_structured_zero_price_kept :
    parse_from_raw rawZeroPrice =
      .ok [{ name := "りんご", price := 0, quantity := 1, discount := 0,
             barcode := none }] := by
  exact rfl

/-- Looking a name up right after `set_search_cache` stored it yields
exactly the stored value (the `INSERT OR REPLACE` keeps the key unique). -/
theorem lookup_set_search_cache (st : DBState) (n : String) (i : ProductInfo) :
    get_search_cache (set_search_cache st n i) n = some i := by
  unfold get_search_cache set_search_cache
  induction st.search_cache with
  | nil => simp
  | cons e t ih =>
    by_cases h : e.1 = n
    · simpa [List.filter_cons, h] using ih
    · have h2 : (n == e.1) = false := by
        simp [Ne.symm h]
      simpa [List.filter_cons, h, List.lookup, h2] using ih

/-- C6: cache monotonicity holds.  After any `search_product_info` call the
cache maps the exact input name to the returned value, and a second call
for the same name returns that value unchanged, leaves the state unchanged,
and reaches neither the rule table nor the external search. -/
theorem C6_cache_monotonic (product_name : String) (st : DBState)
    (google : String → Option ProductInfo) :
    get_search_cache (search_product_info product_name st google).st
        product_name
      = some (search_product_info product_name st google).info ∧
    search_product_info product_name
        (search_product_info product_name st google).st google
      = { info := (search_product_info product_name st google).info
          st := (search_product_info product_name st google).st
          usedLocalRules := false
          usedGoogle := false } := by
  unfold search_product_info
  cases hc : get_search_cache st product_name with
  | some cached => simp [hc]
  | none =>
    cases hm : match_local_keywords product_name with
    | some info => simp [hc, hm, lookup_set_search_cache]
    | none =>
      cases hg : google product_name with
      | some info => simp [hc, hm, hg, lookup_set_search_cache]
      | none => simp [hc, hm, hg, lookup_set_search_cache]

/-- `upsert_product` only touches the `products` table and its id counter:
purchases, inventory, the cache and their counters are returned unchanged. -/
theorem upsert_product_spec (st : DBState) (name : String)
    (info : Option ProductInfo) :
    ∃ (pid : Nat) (prods : List ProductRow) (npid : Nat),
      upsert_product st name info =
        (pid, ⟨prods, st.purchases, st.inventory, st.search_cache,
               npid, st.next_purchase_id, st.next_inventory_id⟩) := by
  unfold upsert_product
  cases h : st.products.find? (fun r => r.name == name) with
  | some row =>
    cases info with
    | some i => exact ⟨row.id, _, st.next_product_id, rfl⟩
    | none => exact ⟨row.id, st.products, st.next_product_id, rfl⟩
  | none =>
    cases info with
    | some i => exact ⟨st.next_product_id, _, _, rfl⟩
    | none => exact ⟨st.next_product_id, _, _, rfl⟩

/-- A fold over `List.range` that ignores the element is an iterate. -/
theorem foldl_range_const {α : Type} (f : α → α) (n : Nat) (a : α) :
    (List.range n).foldl (fun s _ => f s) a = f^[n] a := by
  induction n with
  | zero => rfl
  | succ n ih =>
    rw [List.range_succ, List.foldl_append, ih]
    exact (Function.iterate_succ_apply' f n a).symm

/-- Iterating `insert_unit` n times appends n fresh rows for the purchase,
all `in_stock`, and advances the inventory id counter by n. -/
theorem iterate_insert_unit (puid : Nat) (n : Nat) (st : DBState) :
    ∃ us : List InventoryRow,
      (insert_unit puid)^[n] st =
        ⟨st.products, st.purchases, st.inventory ++ us, st.search_cache,
         st.next_product_id, st.next_purchase_id,
         st.next_inventory_id + n⟩ ∧
      us.length = n ∧
      ∀ u ∈ us, u.purchase_id = puid ∧ u.status = "in_stock" := by
  induction n with
  | zero => exact ⟨[], by simp, rfl, by simp⟩
  | succ n ih =>
    obtain ⟨us, hst, hlen, hall⟩ := ih
    refine ⟨us ++ [⟨st.next_inventory_id + n, puid, "in_stock"⟩], ?_,
      by simp [hlen], ?_⟩
    · rw [Function.iterate_succ_apply', hst]
      simp [insert_unit, List.append_assoc, Nat.add_assoc]
    · intro u hu
      rcases List.mem_append.mp hu with h | h
      · exact hall u h
      · rcases List.mem_singleton.mp h with rfl
        exact ⟨rfl, rfl⟩

/-- Effect of one `import_step`: the count grows by one; one purchase row
with the next free purchase id and the item's price/quantity/discount is
appended; `quantity.toNat` fresh `in_stock` units referencing that purchase
are appended; no other table is touched (the products table changes only
through the upsert). -/
theorem import_step_spec (rid store : String) (pat : Int)
    (infos : List (String × ProductInfo)) (c : Int) (st : DBState)
    (p : ParsedProduct) :
    ∃ (pid : Nat) (prods : List ProductRow) (npid : Nat)
      (us : List InventoryRow),
      import_step rid store pat infos (c, st) p =
        (c + 1,
         ⟨prods,
          st.purchases ++ [⟨st.next_purchase_id, pid, rid, store, p.price,
            p.quantity, p.discount, pat⟩],
          st.inventory ++ us, st.search_cache, npid,
          st.next_purchase_id + 1,
          st.next_inventory_id + p.quantity.toNat⟩) ∧
      us.length = p.quantity.toNat ∧
      ∀ u ∈ us, u.purchase_id = st.next_purchase_id ∧ u.status = "in_stock" := by
  obtain ⟨pid, prods, npid, hup⟩ :=
    upsert_product_spec st p.name (infos.lookup p.name)
  obtain ⟨us, hit, hlen, hall⟩ :=
    iterate_insert_unit st.next_purchase_id p.quantity.toNat
      ⟨prods,
       st.purchases ++ [⟨st.next_purchase_id, pid, rid, store, p.price,
         p.quantity, p.discount, pat⟩],
       st.inventory, st.search_cache, npid, st.next_purchase_id + 1,
       st.next_inventory_id⟩
  refine ⟨pid, prods, npid, us, ?_, hlen, hall⟩
  unfold import_step
  simp only [hup]
  rw [foldl_range_const (insert_unit st.next_purchase_id)]
  exact congrArg (Prod.mk (c + 1)) hit

/-- Effect of the whole import loop: starting from count `c`, the loop adds
one to the count per item, appends exactly the `mkPurchases` rows (ids
consecutive from the next free purchase id), and appends inventory units
whose purchase ids all lie in the new range, with exactly
`quantity.toNat` units (all `in_stock`) for the `k`-th new purchase. -/
theorem import_fold_spec (rid store : String) (pat : Int)
    (infos : List (String × ProductInfo)) :
    ∀ (items : List ParsedProduct) (c : Int) (st : DBState),
    ∃ (pids : List Nat) (prods : List ProductRow) (npid ninv : Nat)
      (us : List InventoryRow),
      items.foldl (import_step rid store pat infos) (c, st) =
        (c + items.length,
         ⟨prods,
          st.purchases ++
            mkPurchases rid store pat st.next_purchase_id pids items,
          st.inventory ++ us, st.search_cache, npid,
          st.next_purchase_id + items.length, ninv⟩) ∧
      pids.length = items.length ∧
      (∀ u ∈ us, u.status = "in_stock" ∧ st.next_purchase_id ≤ u.purchase_id ∧
        u.purchase_id < st.next_purchase_id + items.length) ∧
      (∀ k (hk : k < items.length),
        (us.filter (fun u =>
          u.purchase_id == st.next_purchase_id + k)).length
          = (items.get ⟨k, hk⟩).quantity.toNat) := by
  intro items
  induction items with
  | nil =>
    intro c st
    refine ⟨[], st.products, st.next_product_id, st.next_inventory_id, [],
      ?_, rfl, by simp, by simp⟩
    simp [mkPurchases]
  | cons p items ih =>
    intro c st
    obtain ⟨pid0, prods0, npid0, us0, hstep, hlen0, hall0⟩ :=
      import_step_spec rid store pat infos c st p
    obtain ⟨pids, prods, npid, ninv, us, hfold, hplen, hus, hk⟩ :=
      ih (c + 1)
        ⟨prods0,
         st.purchases ++ [⟨st.next_purchase_id, pid0, rid, store, p.price,
           p.quantity, p.discount, pat⟩],
         st.inventory ++ us0, st.search_cache, npid0,
         st.next_purchase_id + 1,
         st.next_inventory_id + p.quantity.toNat⟩
    simp only [] at hfold hus hk
    refine ⟨pid0 :: pids, prods, npid, ninv, us0 ++ us, ?_,
      by simp [hplen], ?_, ?_⟩
    · rw [List.foldl_cons, hstep, hfold]
      have h1 : c + 1 + (items.length : Int)
          = c + ((p :: items).length : Int) := by
        simp only [List.length_cons]
        push_cast
        ring
      have h2 : st.next_purchase_id + 1 + items.length
          = st.next_purchase_id + (p :: items).length := by
        simp only [List.length_cons]
        omega
      rw [Prod.mk.injEq]
      refine ⟨h1, ?_⟩
      rw [DBState.mk.injEq]
      refine ⟨rfl, ?_, ?_, rfl, rfl, h2, rfl⟩
      · simp [mkPurchases, List.append_assoc]
      · simp [List.append_assoc]
    · intro u hu
      rcases List.mem_append.mp hu with h | h
      · obtain ⟨h1, h2⟩ := hall0 u h
        refine ⟨h2, by omega, ?_⟩
        simp only [List.length_cons]
        omega
      · obtain ⟨h1, h2, h3⟩ := hus u h
        refine ⟨h1, by omega, ?_⟩
        simp only [List.length_cons]
        omega
    · intro k hk'
      rw [List.filter_append]
      cases k with
      | zero =>
        try simp only [Nat.add_zero]
        have hf0 : us0.filter (fun u =>
            u.purchase_id == st.next_purchase_id) = us0 := by
          refine List.filter_eq_self.mpr ?_
          intro u hu
          simp [(hall0 u hu).1]
        have hf1 : us.filter (fun u =>
            u.purchase_id == st.next_purchase_id) = [] := by
          refine List.filter_eq_nil_iff.mpr ?_
          intro u hu
          have h2 := (hus u hu).2.1
          simp only [beq_iff_eq]
          omega
        simp [hf0, hf1, hlen0]
      | succ k =>
        have hf0 : us0.filter (fun u =>
            u.purchase_id == st.next_purchase_id + (k + 1)) = [] := by
          refine List.filter_eq_nil_iff.mpr ?_
          intro u hu
          have h1 := (hall0 u hu).1
          simp only [beq_iff_eq]
          omega
        have hk2 : k < items.length := by
          simpa using Nat.lt_of_succ_lt_succ hk'
        have hres := hk k hk2
        simp only [hf0, List.nil_append]
        have harg : st.next_purchase_id + (k + 1)
            = st.next_purchase_id + 1 + k := by omega
        simp only [harg]
        simpa using hres

/-- The `i`-th row `mkPurchases` builds is a member, has id `base + i`, and
carries the `i`-th item's price/quantity/discount. -/
theorem mkPurchases_mem (rid store : String) (pat : Int) :
    ∀ (items : List ParsedProduct) (pids : List Nat) (base : Nat),
      pids.length = items.length →
      ∀ (i : Nat) (hi : i < items.length),
      ∃ pid, (⟨base + i, pid, rid, store, (items.get ⟨i, hi⟩).price,
        (items.get ⟨i, hi⟩).quantity, (items.get ⟨i, hi⟩).discount, pat⟩ :
          PurchaseRow) ∈ mkPurchases rid store pat base pids items := by
  intro items
  induction items with
  | nil =>
    intro pids base _ i hi
    exact absurd hi (by simp)
  | cons p ps ih =>
    intro pids base hlen i hi
    cases pids with
    | nil => exact absurd hlen (by simp)
    | cons q qs =>
      cases i with
      | zero =>
        refine ⟨q, ?_⟩
        simp [mkPurchases]
      | succ i =>
        have hi2 : i < ps.length := Nat.lt_of_succ_lt_succ hi
        obtain ⟨pid, hmem⟩ := ih qs (base + 1) (by simpa using hlen) i hi2
        refine ⟨pid, ?_⟩
        have harr : base + 1 + i = base + (i + 1) := by omega
        rw [harr] at hmem
        exact List.mem_cons_of_mem _ hmem

/-- C2: import is idempotent per `receiptId`.  A first import of a receipt
with at least one item returns a positive count, and any subsequent
`import_receipt` call whose receipt carries the same `receipt_id` returns
`0` and leaves the database state — all four tables — unchanged. -/
theorem C2_import_idempotent (st : DBState) (r r2 : ReceiptProducts)
    (infos infos2 : List (String × ProductInfo))
    (hne : r.products ≠ [])
    (hni : is_receipt_imported st r.receipt_id = false)
    (hid : r2.receipt_id = r.receipt_id) :
    0 < (import_receipt st r infos).1 ∧
    import_receipt (import_receipt st r infos).2 r2 infos2
      = (0, (import_receipt st r infos).2) := by
  obtain ⟨pids, prods, npid, ninv, us, hfold, hplen, hus, hk⟩ :=
    import_fold_spec r.receipt_id r.store_name r.purchased_at infos
      r.products 0 st
  have himp : import_receipt st r infos
      = (0 + (r.products.length : Int),
         ⟨prods,
          st.purchases ++ mkPurchases r.receipt_id r.store_name r.purchased_at
            st.next_purchase_id pids r.products,
          st.inventory ++ us, st.search_cache, npid,
          st.next_purchase_id + r.products.length, ninv⟩) := by
    unfold import_receipt
    rw [hni]
    simpa using hfold
  have hpos : 0 < r.products.length := List.length_pos.mpr hne
  have hflag : is_receipt_imported
      (⟨prods,
        st.purchases ++ mkPurchases r.receipt_id r.store_name r.purchased_at
          st.next_purchase_id pids r.products,
        st.inventory ++ us, st.search_cache, npid,
        st.next_purchase_id + r.products.length, ninv⟩ : DBState)
      r2.receipt_id = true := by
    unfold is_receipt_imported
    simp only [hid, List.any_append, Bool.or_eq_true]
    right
    cases hp : r.products with
    | nil => exact absurd hp hne
    | cons p ps =>
      cases hq : pids with
      | nil =>
        rw [hq, hp] at hplen
        exact absurd hplen (by simp)
      | cons q qs =>
        simp [mkPurchases]
  refine ⟨?_, ?_⟩
  · rw [himp]
    simp only []
    omega
  · rw [himp]
    simp [import_receipt, hflag]

/-- C3: unit expansion.  When a not-yet-imported receipt is imported into a
well-formed state (all inventory rows reference purchase ids below the next
free one), the returned count is one per line item, and for every item of
quantity `n ≥ 1` there is a purchase row for this receipt carrying exactly
that quantity such that exactly `n` inventory rows reference it, all with
status `in_stock`. -/
theorem C3_unit_expansion (st : DBState) (r : ReceiptProducts)
    (infos : List (String × ProductInfo))
    (hwf : ∀ u ∈ st.inventory, u.purchase_id < st.next_purchase_id)
    (hni : is_receipt_imported st r.receipt_id = false)
    (i : Nat) (hi : i < r.products.length)
    (hq : 1 ≤ (r.products.get ⟨i, hi⟩).quantity) :
    (import_receipt st r infos).1 = r.products.length ∧
    ∃ pr ∈ (import_receipt st r infos).2.purchases,
      pr.receipt_id = r.receipt_id ∧
      pr.quantity = (r.products.get ⟨i, hi⟩).quantity ∧
      ((unitsRef (import_receipt st r infos).2 pr.id).length : Int)
        = (r.products.get ⟨i, hi⟩).quantity ∧
      ∀ u ∈ unitsRef (import_receipt st r infos).2 pr.id,
        u.status = "in_stock" := by
  obtain ⟨pids, prods, npid, ninv, us, hfold, hplen, hus, hk⟩ :=
    import_fold_spec r.receipt_id r.store_name r.purchased_at infos
      r.products 0 st
  have himp : import_receipt st r infos
      = (0 + (r.products.length : Int),
         ⟨prods,
          st.purchases ++ mkPurchases r.receipt_id r.store_name r.purchased_at
            st.next_purchase_id pids r.products,
          st.inventory ++ us, st.search_cache, npid,
          st.next_purchase_id + r.products.length, ninv⟩) := by
    unfold import_receipt
    rw [hni]
    simpa using hfold
  obtain ⟨pid, hmem⟩ :=
    mkPurchases_mem r.receipt_id r.store_name r.purchased_at r.products pids
      st.next_purchase_id hplen i hi
  have hfilter : (unitsRef (import_receipt st r infos).2
      (st.next_purchase_id + i)).length
      = (r.products.get ⟨i, hi⟩).quantity.toNat := by
    rw [himp]
    unfold unitsRef
    simp only [List.filter_append]
    have h0 : st.inventory.filter (fun u =>
        u.purchase_id == st.next_purchase_id + i) = [] := by
      refine List.filter_eq_nil_iff.mpr ?_
      intro u hu
      have := hwf u hu
      simp only [beq_iff_eq]
      omega
    rw [h0]
    simpa using hk i hi
  have hstat : ∀ u ∈ unitsRef (import_receipt st r infos).2
      (st.next_purchase_id + i), u.status = "in_stock" := by
    rw [himp]
    unfold unitsRef
    intro u hu
    simp only [] at hu
    have humem := List.mem_of_mem_filter hu
    have hid2 := List.of_mem_filter hu
    simp only [beq_iff_eq] at hid2
    rcases List.mem_append.mp humem with h | h
    · have hlt := hwf u h
      exact absurd hid2 (by omega)
    · exact (hus u h).1
  refine ⟨by rw [himp]; simp, ?_⟩
  refine ⟨⟨st.next_purchase_id + i, pid, r.receipt_id, r.store_name,
    (r.products.get ⟨i, hi⟩).price, (r.products.get ⟨i, hi⟩).quantity,
    (r.products.get ⟨i, hi⟩).discount, r.purchased_at⟩, ?_, rfl, rfl, ?_, ?_⟩
  · rw [himp]
    simp only []
    exact List.mem_append_right _ hmem
  · rw [hfilter]
    omega
  · exact hstat

/-- C2 witness: the two-item receipt `rcptA` imported into an empty
database: the first call returns a positive count, the second returns `0`
and the state is unchanged. -/
theorem C2_import_idempotent_witness :
    rcptA.products ≠ [] ∧
    is_receipt_imported emptyDB rcptA.receipt_id = false ∧
    (0 < (import_receipt emptyDB rcptA infosA).1 ∧
     import_receipt (import_receipt emptyDB rcptA infosA).2 rcptA []
       = (0, (import_receipt emptyDB rcptA infosA).2)) :=
  ⟨by decide, by decide,
   C2_import_idempotent emptyDB rcptA rcptA infosA [] (by decide) (by decide)
     rfl⟩

/-- C3 witness: item index 1 of `rcptA` (quantity 2) on the empty
database. -/
theorem C3_unit_expansion_witness :
    (1 : Int) ≤ (rcptA.products.get ⟨1, by decide⟩).quantity ∧
    (import_receipt emptyDB rcptA infosA).1 = rcptA.products.length := by
  have h := C3_unit_expansion emptyDB rcptA infosA
    (by intro u hu; exact absurd hu (List.not_mem_nil u)) (by decide) 1
    (by decide) (by decide)
  exact ⟨by decide, h.1⟩

/-- C10: an item whose quantity is non-positive still yields a Purchase row
(with that quantity, counted in the result) and zero InventoryUnit rows;
and the structured extractor produces such items: its quantity coercion
`_to_int(...) or 1` maps a `Quantity` of `0` to the default `1` but passes
any other integer — negative ones included — through unchanged. -/
theorem C10_nonpositive_quantity (st : DBState) (r : ReceiptProducts)
    (infos : List (String × ProductInfo))
    (hwf : ∀ u ∈ st.inventory, u.purchase_id < st.next_purchase_id)
    (hni : is_receipt_imported st r.receipt_id = false)
    (i : Nat) (hi : i < r.products.length)
    (hq : (r.products.get ⟨i, hi⟩).quantity ≤ 0) :
    ((import_receipt st r infos).1 = r.products.length ∧
     ∃ pr ∈ (import_receipt st r infos).2.purchases,
       pr.receipt_id = r.receipt_id ∧
       pr.quantity = (r.products.get ⟨i, hi⟩).quantity ∧
       unitsRef (import_receipt st r infos).2 pr.id = []) ∧
    (∀ q : Int, parse_from_raw (rawWithQty q)
      = .ok [{ name := "品X", price := 100,
               quantity := if q == 0 then 1 else q, discount := 0,
               barcode := none }]) := by
  obtain ⟨pids, prods, npid, ninv, us, hfold, hplen, hus, hk⟩ :=
    import_fold_spec r.receipt_id r.store_name r.purchased_at infos
      r.products 0 st
  have himp : import_receipt st r infos
      = (0 + (r.products.length : Int),
         ⟨prods,
          st.purchases ++ mkPurchases r.receipt_id r.store_name r.purchased_at
            st.next_purchase_id pids r.products,
          st.inventory ++ us, st.search_cache, npid,
          st.next_purchase_id + r.products.length, ninv⟩) := by
    unfold import_receipt
    rw [hni]
    simpa using hfold
  obtain ⟨pid, hmem⟩ :=
    mkPurchases_mem r.receipt_id r.store_name r.purchased_at r.products pids
      st.next_purchase_id hplen i hi
  refine ⟨⟨by rw [himp]; simp, ?_⟩, fun q => rfl⟩
  refine ⟨⟨st.next_purchase_id + i, pid, r.receipt_id, r.store_name,
    (r.products.get ⟨i, hi⟩).price, (r.products.get ⟨i, hi⟩).quantity,
    (r.products.get ⟨i, hi⟩).discount, r.purchased_at⟩, ?_, rfl, rfl, ?_⟩
  · rw [himp]
    simp only []
    exact List.mem_append_right _ hmem
  · rw [himp]
    unfold unitsRef
    simp only [List.filter_append, List.append_eq_nil]
    constructor
    · refine List.filter_eq_nil_iff.mpr ?_
      intro u hu
      have := hwf u hu
      simp only [beq_iff_eq]
      omega
    · refine List.filter_eq_nil_iff.mpr ?_
      intro u hu
      have hcnt := hk i hi
      have hz : (r.products.get ⟨i, hi⟩).quantity.toNat = 0 := by omega
      rw [hz] at hcnt
      have hnil := List.length_eq_zero.mp hcnt
      intro hbeq
      have : u ∈ us.filter (fun u =>
          u.purchase_id == st.next_purchase_id + i) :=
        List.mem_filter.mpr ⟨hu, hbeq⟩
      rw [hnil] at this
      exact absurd this (List.not_mem_nil u)

/-- C10 witness: importing the negative-quantity receipt `rcptNeg` into the
empty database, and the parser coercion at `Quantity = 0` and
`Quantity = -2`. -/
theorem C10_nonpositive_quantity_witness :
    (rcptNeg.products.get ⟨0, by decide⟩).quantity ≤ 0 ∧
    (import_receipt emptyDB rcptNeg []).1 = rcptNeg.products.length ∧
    parse_from_raw (rawWithQty 0)
      = .ok [{ name := "品X", price := 100, quantity := 1, discount := 0,
               barcode := none }] ∧
    parse_from_raw (rawWithQty (-2))
      = .ok [{ name := "品X", price := 100, quantity := -2, discount := 0,
               barcode := none }] := by
  have h := C10_nonpositive_quantity emptyDB rcptNeg []
    (by intro u hu; exact absurd hu (List.not_mem_nil u)) (by decide) 0
    (by decide) (by decide)
  refine ⟨by decide, h.1.1, ?_, ?_⟩
  · simpa using h.2 0
  · simpa using h.2 (-2)

/-- A member of the in-stock join was produced by `joinFun` from an
inventory row: its purchase and product are the `find?` results and the
unit is in stock. -/
theorem mem_inStockJoined (st : DBState)
    (e : InventoryRow × PurchaseRow × ProductRow)
    (h : e ∈ inStockJoined st) :
    e.1 ∈ st.inventory ∧ e.1.status = "in_stock" ∧
    st.purchases.find? (fun pu => pu.id == e.1.purchase_id) = some e.2.1 ∧
    st.products.find? (fun p => p.id == e.2.1.product_id) = some e.2.2 := by
  obtain ⟨u, hu, hj⟩ := List.mem_filterMap.mp h
  unfold joinFun at hj
  by_cases hs : u.status == "in_stock"
  · rw [if_pos hs] at hj
    cases hpu : st.purchases.find? (fun pu => pu.id == u.purchase_id) with
    | none => rw [hpu] at hj; exact absurd hj (by simp)
    | some pu =>
      rw [hpu] at hj
      simp only [] at hj
      cases hq : st.products.find? (fun p => p.id == pu.product_id) with
      | none => rw [hq] at hj; exact absurd hj (by simp)
      | some q =>
        rw [hq] at hj
        simp only [] at hj
        obtain rfl := Option.some.inj hj
        exact ⟨hu, by simpa using hs, hpu, hq⟩
  · rw [if_neg hs] at hj
    exact absurd hj (by simp)

/-- Bridge between the SQL grouping and the claim-side view: projecting any
purchase attribute over the join rows of product `pid` equals projecting it
over that product's in-stock units (provided some product row has id `pid`,
which holds for every id the grouping produces). -/
theorem joined_filter_bridge (st : DBState) (pid : Nat)
    (hp : ∃ q ∈ st.products, q.id = pid) {α : Type}
    (f : PurchaseRow → α) (d : α) :
    ((inStockJoined st).filter (fun e => e.2.2.id == pid)).map
        (fun e => f e.2.1)
      = (inStockClaimUnits st pid).map
        (fun u => ((purchaseOfUnit st u).map f).getD d) := by
  unfold inStockJoined inStockClaimUnits purchaseOfUnit
  induction st.inventory with
  | nil => rfl
  | cons u t ih =>
    simp only [List.filterMap_cons, List.filter_cons]
    by_cases hs : (u.status == "in_stock") = true
    · cases hpu : st.purchases.find? (fun pu => pu.id == u.purchase_id) with
      | none => simpa [joinFun, hs, hpu] using ih
      | some pu =>
        cases hq : st.products.find? (fun p => p.id == pu.product_id) with
        | none =>
          have hne : (pu.product_id == pid) = false := by
            rcases hp with ⟨q0, hq0, hq0id⟩
            by_contra hcc
            have heq : pu.product_id = pid := by
              cases hval : pu.product_id == pid
              · exact absurd hval hcc
              · exact beq_iff_eq.mp hval
            have hsome : (st.products.find? (fun p =>
                p.id == pu.product_id)).isSome := by
              rw [List.find?_isSome]
              exact ⟨q0, hq0, by simp [hq0id, heq]⟩
            rw [hq] at hsome
            exact absurd hsome (by simp)
          simpa [joinFun, hs, hpu, hq, hne] using ih
        | some q =>
          have hqid : q.id = pu.product_id := by
            simpa using List.find?_some hq
          cases hmatch : pu.product_id == pid with
          | false =>
            have hqpid : (q.id == pid) = false := by rw [hqid]; exact hmatch
            simpa [joinFun, hs, hpu, hq, hqpid, hmatch] using ih
          | true =>
            have hqpid : (q.id == pid) = true := by rw [hqid]; exact hmatch
            simpa [joinFun, hs, hpu, hq, hqpid, hmatch] using ih
    · have hs2 : (u.status == "in_stock") = false := by
        cases hval : u.status == "in_stock"
        · rfl
        · exact absurd hval hs
      have hj : joinFun st u = none := by
        unfold joinFun
        rw [if_neg hs]
      simpa [hj, hs2] using ih

/-- The result of folding `max` is the base or a member. -/
theorem foldl_max_mem (l : List Int) (a : Int) :
    l.foldl max a = a ∨ l.foldl max a ∈ l := by
  induction l generalizing a with
  | nil => exact Or.inl rfl
  | cons b t ih =>
    rcases ih (max a b) with h | h
    · rcases max_choice a b with hm | hm
      · exact Or.inl (by rw [List.foldl_cons, h, hm])
      · exact Or.inr (by rw [List.foldl_cons, h, hm]; exact List.mem_cons_self b t)
    · exact Or.inr (List.mem_cons_of_mem b h)

/-- The fold of `max` bounds the base and every member. -/
theorem le_foldl_max (l : List Int) (a : Int) :
    a ≤ l.foldl max a ∧ ∀ x ∈ l, x ≤ l.foldl max a := by
  induction l generalizing a with
  | nil => exact ⟨le_refl a, by simp⟩
  | cons b t ih =>
    obtain ⟨h1, h2⟩ := ih (max a b)
    refine ⟨le_trans (le_max_left a b) h1, ?_⟩
    intro x hx
    rcases List.mem_cons.mp hx with rfl | hx
    · exact le_trans (le_max_right a x) h1
    · exact h2 x hx

/-- `filterMap` by a function that succeeds on every member keeps the
length. -/
theorem length_filterMap_of_isSome {α β : Type} (g : α → Option β) :
    ∀ l : List α, (∀ a ∈ l, (g a).isSome) →
      (l.filterMap g).length = l.length := by
  intro l h
  induction l with
  | nil => rfl
  | cons a t ih =>
    rw [List.filterMap_cons]
    cases hg : g a with
    | none =>
      have := h a (List.mem_cons_self a t)
      rw [hg] at this
      exact absurd this (by simp)
    | some b =>
      simp only [List.length_cons]
      rw [ih (fun x hx => h x (List.mem_cons_of_mem a hx))]

/-- In a product table with pairwise-distinct ids (the `id INTEGER PRIMARY
KEY` constraint), a row is determined by its id. -/
theorem eq_of_mem_pairwise_id (ps : List ProductRow)
    (hnd : ps.Pairwise (fun a b => a.id ≠ b.id)) :
    ∀ p ∈ ps, ∀ q ∈ ps, p.id = q.id → p = q := by
  induction ps with
  | nil => intro p hp; exact absurd hp (by simp)
  | cons a t ih =>
    rw [List.pairwise_cons] at hnd
    intro p hp q hq heq
    rcases List.mem_cons.mp hp with hpa | hpt
    · rcases List.mem_cons.mp hq with hqa | hqt
      · rw [hpa, hqa]
      · rw [hpa] at heq
        exact absurd heq (hnd.1 q hqt)
    · rcases List.mem_cons.mp hq with hqa | hqt
      · rw [hqa] at heq
        exact absurd heq.symm (hnd.1 p hpt)
      · exact ih hnd.2 p hpt q hqt heq

/-- A product with an in-stock unit (claim-side) occurs in the in-stock
join under its own id. -/
theorem join_id_of_stock (st : DBState) (p : ProductRow)
    (hp : p ∈ st.products) (hc : 0 < inStockUnitCount st p.id) :
    ∃ e ∈ inStockJoined st, e.2.2.id = p.id := by
  unfold inStockUnitCount at hc
  obtain ⟨u, hu⟩ := List.exists_mem_of_ne_nil _ (List.length_pos.mp hc)
  unfold inStockClaimUnits at hu
  have humem : u ∈ st.inventory := List.mem_of_mem_filter hu
  have hpred := List.of_mem_filter hu
  rw [Bool.and_eq_true] at hpred
  obtain ⟨hstat, href⟩ := hpred
  cases hpu : purchaseOfUnit st u with
  | none =>
    rw [hpu] at href
    exact absurd href (by simp)
  | some pu =>
    rw [hpu] at href
    have hrefid : pu.product_id = p.id := by simpa using href
    have hsome : (st.products.find? (fun q => q.id == pu.product_id)).isSome := by
      rw [List.find?_isSome]
      exact ⟨p, hp, by simp [hrefid]⟩
    cases hq : st.products.find? (fun q => q.id == pu.product_id) with
    | none =>
      rw [hq] at hsome
      exact absurd hsome (by simp)
    | some q =>
      have hqid : q.id = pu.product_id := by simpa using List.find?_some hq
      refine ⟨(u, pu, q), ?_, ?_⟩
      · unfold inStockJoined
        rw [List.mem_filterMap]
        refine ⟨u, humem, ?_⟩
        unfold joinFun
        rw [if_pos hstat]
        unfold purchaseOfUnit at hpu
        rw [hpu]
        simp only []
        rw [hq]
      · show q.id = p.id
        rw [hqid, hrefid]

/-- Conversely, the product of any in-stock join element has an in-stock
unit (claim-side). -/
theorem stock_of_join_id (st : DBState)
    (e : InventoryRow × PurchaseRow × ProductRow)
    (he : e ∈ inStockJoined st) : 0 < inStockUnitCount st e.2.2.id := by
  obtain ⟨hu_mem, hu_st, hpu_find, hq_find⟩ := mem_inStockJoined st e he
  have hqid : e.2.2.id = e.2.1.product_id := by
    simpa using List.find?_some hq_find
  have hu : e.1 ∈ inStockClaimUnits st e.2.2.id := by
    unfold inStockClaimUnits
    rw [List.mem_filter]
    refine ⟨hu_mem, ?_⟩
    rw [Bool.and_eq_true]
    refine ⟨by simp [hu_st], ?_⟩
    unfold purchaseOfUnit
    rw [hpu_find]
    simp [hqid]
  unfold inStockUnitCount
  exact List.length_pos.mpr (List.ne_nil_of_mem hu)

/-- C4 (amended): `get_in_stock_items` returns ONE row PER product having
at least one in-stock unit.  Soundness: every row of the result corresponds
to such a product; its `total_quantity` is the sum, over the product's
in-stock units, of each unit's purchase quantity (so a purchase of quantity
q with k units in stock contributes q·k — not the number of in-stock units
the claim stated); and `last_purchased` is the maximum `purchased_at` among
the purchases of those in-stock units (not over all the product's
purchases).  Completeness and uniqueness (under the table's primary-key
invariant, pairwise-distinct product ids): every product with at least one
in-stock unit yields a row carrying its name and aggregate, and the number
of rows equals the number of such products — together with soundness, each
such product appears exactly once. -/
theorem C4_stock_aggregation_amended (st : DBState) :
    (∀ row ∈ get_in_stock_items st,
      ∃ p ∈ st.products,
        row.name = p.name ∧
        0 < inStockUnitCount st p.id ∧
        row.total_quantity = inStockQuantitySum st p.id ∧
        row.last_purchased ∈ inStockPurchaseDates st p.id ∧
        ∀ d ∈ inStockPurchaseDates st p.id, d ≤ row.last_purchased) ∧
    (List.Pairwise (fun a b => a.id ≠ b.id) st.products →
      (∀ p ∈ st.products, 0 < inStockUnitCount st p.id →
        ∃ row ∈ get_in_stock_items st,
          row.name = p.name ∧
          row.total_quantity = inStockQuantitySum st p.id) ∧
      (get_in_stock_items st).length =
        (st.products.filter
          (fun p => decide (0 < inStockUnitCount st p.id))).length) := by
  constructor
  · intro row hrow
    unfold get_in_stock_items at hrow
    rw [List.mem_mergeSort] at hrow
    unfold get_in_stock_rows at hrow
    simp only [] at hrow
    rw [List.mem_filterMap] at hrow
    obtain ⟨pid, hpid, hg⟩ := hrow
    cases hgrp : (inStockJoined st).filter (fun e => e.2.2.id == pid) with
    | nil =>
      rw [hgrp] at hg
      exact absurd hg (by simp)
    | cons e rest =>
      rw [hgrp] at hg
      simp only [] at hg
      obtain rfl := (Option.some.inj hg).symm
      have he : e ∈ (inStockJoined st).filter (fun e => e.2.2.id == pid) := by
        rw [hgrp]
        exact List.mem_cons_self e rest
      have hej : e ∈ inStockJoined st := List.mem_of_mem_filter he
      have hepid : e.2.2.id = pid := by
        simpa using List.of_mem_filter he
      obtain ⟨hu_mem, hu_st, hpu_find, hq_find⟩ := mem_inStockJoined st e hej
      have hpmem : e.2.2 ∈ st.products := List.mem_of_find?_eq_some hq_find
      have hp : ∃ q ∈ st.products, q.id = pid := ⟨e.2.2, hpmem, hepid⟩
      have hbq := joined_filter_bridge st pid hp
        (fun pu => pu.quantity) (0 : Int)
      have hbd := joined_filter_bridge st pid hp
        (fun pu => pu.purchased_at) (0 : Int)
      rw [hgrp] at hbq hbd
      refine ⟨e.2.2, hpmem, rfl, ?_, ?_, ?_, ?_⟩
      · rw [hepid]
        unfold inStockUnitCount
        have hlen := congrArg List.length hbq
        simp only [List.length_map, List.length_cons] at hlen
        unfold inStockClaimUnits at hlen ⊢
        omega
      · rw [hepid]
        unfold inStockQuantitySum
        exact congrArg List.sum hbq
      · rw [hepid]
        unfold inStockPurchaseDates
        rw [← hbd]
        rcases foldl_max_mem
            ((e :: rest).map (fun g => g.2.1.purchased_at))
            e.2.1.purchased_at with h | h
        · rw [h]
          exact List.mem_map_of_mem _ (List.mem_cons_self e rest)
        · exact h
      · rw [hepid]
        unfold inStockPurchaseDates
        rw [← hbd]
        intro d hd
        exact (le_foldl_max _ _).2 d hd
  · intro hnd
    constructor
    · intro p hp hc
      obtain ⟨e, hej, hei⟩ := join_id_of_stock st p hp hc
      have hkey : p.id ∈ ((inStockJoined st).map (fun x => x.2.2.id)).dedup :=
        List.mem_dedup.mpr (List.mem_map.mpr ⟨e, hej, hei⟩)
      cases hgrp : (inStockJoined st).filter (fun x => x.2.2.id == p.id) with
      | nil =>
        have hmem : e ∈ (inStockJoined st).filter
            (fun x => x.2.2.id == p.id) :=
          List.mem_filter.mpr ⟨hej, by simp [hei]⟩
        rw [hgrp] at hmem
        exact absurd hmem (by simp)
      | cons e0 rest =>
        have he0 : e0 ∈ (inStockJoined st).filter
            (fun x => x.2.2.id == p.id) := by
          rw [hgrp]
          exact List.mem_cons_self e0 rest
        have he0j : e0 ∈ inStockJoined st := List.mem_of_mem_filter he0
        have he0pid : e0.2.2.id = p.id := by
          simpa using List.of_mem_filter he0
        obtain ⟨h0u, h0s, h0pu, h0q⟩ := mem_inStockJoined st e0 he0j
        have h0pm : e0.2.2 ∈ st.products := List.mem_of_find?_eq_some h0q
        have hpe : e0.2.2 = p :=
          eq_of_mem_pairwise_id st.products hnd e0.2.2 h0pm p hp he0pid
        have hbq := joined_filter_bridge st p.id ⟨p, hp, rfl⟩
          (fun pu => pu.quantity) (0 : Int)
        rw [hgrp] at hbq
        refine ⟨⟨e0.2.2.name, e0.2.2.category, e0.2.2.subcategory,
          e0.2.2.storage_type, e0.2.2.content_amount, e0.2.2.content_unit,
          ((e0 :: rest).map (fun g => g.2.1.quantity)).sum,
          ((e0 :: rest).map (fun g => g.2.1.purchased_at)).foldl max
            e0.2.1.purchased_at,
          e0.2.1.store_name, e0.2.2.shelf_life_days⟩, ?_, ?_, ?_⟩
        · unfold get_in_stock_items
          rw [List.mem_mergeSort]
          unfold get_in_stock_rows
          simp only []
          rw [List.mem_filterMap]
          refine ⟨p.id, hkey, ?_⟩
          rw [hgrp]
        · show e0.2.2.name = p.name
          rw [hpe]
        · show ((e0 :: rest).map (fun g => g.2.1.quantity)).sum = _
          unfold inStockQuantitySum
          exact congrArg List.sum hbq
    · have hl1 : (get_in_stock_items st).length =
          (get_in_stock_rows st).length := by
        unfold get_in_stock_items
        exact List.length_mergeSort (get_in_stock_rows st)
      have hl2 : (get_in_stock_rows st).length =
          (((inStockJoined st).map (fun x => x.2.2.id)).dedup).length := by
        unfold get_in_stock_rows
        simp only []
        refine length_filterMap_of_isSome _ _ ?_
        intro pid hpid
        obtain ⟨e, hej, hei⟩ := List.mem_map.mp (List.mem_dedup.mp hpid)
        cases hgrp : (inStockJoined st).filter (fun x => x.2.2.id == pid) with
        | nil =>
          have hmem : e ∈ (inStockJoined st).filter
              (fun x => x.2.2.id == pid) :=
            List.mem_filter.mpr ⟨hej, by simp [hei]⟩
          rw [hgrp] at hmem
          exact absurd hmem (by simp)
        | cons e0 rest =>
          rfl
      have hnodup2 : ((st.products.filter
          (fun p => decide (0 < inStockUnitCount st p.id))).map
            (fun p => p.id)).Nodup := by
        have hnd0 : st.products.Nodup :=
          List.Pairwise.imp (fun h heq => h (by rw [heq])) hnd
        refine List.Nodup.map_on ?_ (hnd0.filter _)
        intro x hx y hy hxy
        exact eq_of_mem_pairwise_id st.products hnd x
          (List.mem_of_mem_filter hx) y (List.mem_of_mem_filter hy) hxy
      have hext : ∀ a : Nat,
          a ∈ ((inStockJoined st).map (fun x => x.2.2.id)).dedup ↔
          a ∈ (st.products.filter
            (fun p => decide (0 < inStockUnitCount st p.id))).map
              (fun p => p.id) := by
        intro a
        constructor
        · intro ha
          obtain ⟨e, hej, hei⟩ := List.mem_map.mp (List.mem_dedup.mp ha)
          obtain ⟨h0u, h0s, h0pu, h0q⟩ := mem_inStockJoined st e hej
          have hqm : e.2.2 ∈ st.products := List.mem_of_find?_eq_some h0q
          have hstock : 0 < inStockUnitCount st e.2.2.id :=
            stock_of_join_id st e hej
          exact List.mem_map.mpr ⟨e.2.2,
            List.mem_filter.mpr ⟨hqm, by simp [hstock]⟩, hei⟩
        · intro ha
          obtain ⟨q, hqf, hqid⟩ := List.mem_map.mp ha
          have hqm : q ∈ st.products := List.mem_of_mem_filter hqf
          have hstock : 0 < inStockUnitCount st q.id := by
            have hq2 := List.of_mem_filter hqf
            simpa using hq2
          obtain ⟨e, hej, hei⟩ := join_id_of_stock st q hqm hstock
          exact List.mem_dedup.mpr
            (List.mem_map.mpr ⟨e, hej, by rw [hei, hqid]⟩)
      have hperm := (List.perm_ext_iff_of_nodup
        (List.nodup_dedup _) hnodup2).mpr hext
      have hl3 := hperm.length_eq
      rw [hl1, hl2, hl3, List.length_map]

/-- C4 amended witness: on `stC4` the single returned row satisfies the
aggregation statement, the product table has distinct ids, the `milk`
product (id 1) has in-stock units and so yields a row, and exactly one row
is returned for the one product with stock. -/
theorem C4_stock_aggregation_amended_witness :
    (({ name := "milk", category := "", subcategory := "",
        storage_type := "常温", content_amount := none, content_unit := "",
        total_quantity := 4, last_purchased := 10, store_name := "",
        shelf_life_days := none } : StockRow) ∈ get_in_stock_items stC4 ∧
     ∃ p ∈ stC4.products,
       "milk" = p.name ∧
       0 < inStockUnitCount stC4 p.id ∧
       (4 : Int) = inStockQuantitySum stC4 p.id ∧
       (10 : Int) ∈ inStockPurchaseDates stC4 p.id ∧
       ∀ d ∈ inStockPurchaseDates stC4 p.id, d ≤ (10 : Int)) ∧
    (List.Pairwise (fun a b => a.id ≠ b.id) stC4.products ∧
     ({ id := 1, name := "milk" } : ProductRow) ∈ stC4.products ∧
     0 < inStockUnitCount stC4 1 ∧
     (∃ row ∈ get_in_stock_items stC4,
        row.name = "milk" ∧
        row.total_quantity = inStockQuantitySum stC4 1) ∧
     (get_in_stock_items stC4).length =
       (stC4.products.filter
         (fun p => decide (0 < inStockUnitCount stC4 p.id))).length) := by
  have h : get_in_stock_rows stC4 =
      [{ name := "milk", category := "", subcategory := "",
         storage_type := "常温", content_amount := none, content_unit := "",
         total_quantity := 4, last_purchased := 10, store_name := "",
         shelf_life_days := none }] := by decide
  have h2 : get_in_stock_items stC4 =
      [{ name := "milk", category := "", subcategory := "",
         storage_type := "常温", content_amount := none, content_unit := "",
         total_quantity := 4, last_purchased := 10, store_name := "",
         shelf_life_days := none }] := by
    unfold get_in_stock_items
    rw [h, List.mergeSort_singleton]
  have hmem :
      ({ name := "milk", category := "", subcategory := "",
         storage_type := "常温", content_amount := none, content_unit := "",
         total_quantity := 4, last_purchased := 10, store_name := "",
         shelf_life_days := none } : StockRow) ∈ get_in_stock_items stC4 := by
    rw [h2]
    exact List.mem_cons_self _ _
  have hnd : List.Pairwise (fun a b => a.id ≠ b.id) stC4.products := by
    simp [stC4]
  have hpm : ({ id := 1, name := "milk" } : ProductRow) ∈ stC4.products := by
    decide
  have hc : 0 < inStockUnitCount stC4 1 := by decide
  obtain ⟨hcomp, hlen⟩ := (C4_stock_aggregation_amended stC4).2 hnd
  refine ⟨⟨hmem, (C4_stock_aggregation_amended stC4).1 _ hmem⟩,
    hnd, hpm, hc, ?_, hlen⟩
  exact hcomp { id := 1, name := "milk" } hpm hc

/-- C7 (amended): every returned row computes `expires_at` as
purchase date + shelf-life days and `days_remaining` as the real-valued
`julianday(expiry) - julianday(now, localtime)` with
`days_remaining ≤ withinDays`; the result is ordered ascending by
`days_remaining`; every in-stock unit with a shelf life whose
`days_remaining` is within the bound contributes a row; and in the
5-days-ago / 3-day-shelf-life scenario the reported value is `-2 - t`
(where `t ∈ [0,1)` is the elapsed fraction of the local day) — a value in
`(-3, -2]`, negative, hence still distinguishable from due-today and
due-in-N-days stock, but an integer only at local midnight. -/
theorem C7_expiry_amended (st : DBState) (now : ℚ) (days : Int) :
    (∀ row ∈ get_expiring_soon st now days,
      row.expires_at = row.purchased_at + row.shelf_life_days ∧
      row.days_remaining = (row.expires_at : ℚ) - now ∧
      row.days_remaining ≤ (days : ℚ)) ∧
    ((get_expiring_soon st now days).Pairwise
      (fun a b => a.days_remaining ≤ b.days_remaining)) ∧
    (∀ e ∈ inStockJoined st, ∀ n : Int,
      e.2.2.shelf_life_days = some n →
      ((e.2.1.purchased_at + n : Int) : ℚ) - now ≤ (days : ℚ) →
      ∃ row ∈ get_expiring_soon st now days,
        row.name = e.2.2.name ∧ row.purchased_at = e.2.1.purchased_at ∧
        row.shelf_life_days = n ∧
        row.days_remaining = ((e.2.1.purchased_at + n : Int) : ℚ) - now) ∧
    (∀ t : ℚ, 0 ≤ t → t < 1 →
      ∀ row ∈ get_expiring_soon stC7 (100 + t) 3,
        row.days_remaining = -2 - t ∧ (-3 : ℚ) < row.days_remaining ∧
        row.days_remaining ≤ -2 ∧ row.days_remaining < 0) := by
  refine ⟨?_, ?_, ?_, ?_⟩
  · intro row hrow
    unfold get_expiring_soon at hrow
    rw [List.mem_mergeSort] at hrow
    unfold get_expiring_rows at hrow
    rw [List.mem_filterMap] at hrow
    obtain ⟨e, he, hf⟩ := hrow
    cases hn : e.2.2.shelf_life_days with
    | none =>
      rw [hn] at hf
      exact absurd hf (by simp)
    | some n =>
      rw [hn] at hf
      simp only [] at hf
      by_cases hcond : ((e.2.1.purchased_at + n : Int) : ℚ) - now ≤ (days : ℚ)
      · rw [if_pos hcond] at hf
        obtain rfl := (Option.some.inj hf).symm
        exact ⟨rfl, rfl, hcond⟩
      · rw [if_neg hcond] at hf
        exact absurd hf (by simp)
  · unfold get_expiring_soon
    have hs := @List.sorted_mergeSort ExpiryRow
      (fun a b => decide (a.days_remaining ≤ b.days_remaining))
      (fun a b c hab hbc => by
        simp only [decide_eq_true_eq] at *
        exact le_trans hab hbc)
      (fun a b => by
        simp only [Bool.or_eq_true, decide_eq_true_eq]
        exact le_total _ _)
      (get_expiring_rows st now days)
    exact hs.imp (fun h => by simpa using h)
  · intro e he n hn hcond
    refine
      ⟨{ name := e.2.2.name, category := e.2.2.category,
         storage_type := e.2.2.storage_type, shelf_life_days := n,
         purchased_at := e.2.1.purchased_at,
         expires_at := e.2.1.purchased_at + n,
         days_remaining := ((e.2.1.purchased_at + n : Int) : ℚ) - now },
       ?_, rfl, rfl, rfl, rfl⟩
    unfold get_expiring_soon
    rw [List.mem_mergeSort]
    unfold get_expiring_rows
    rw [List.mem_filterMap]
    refine ⟨e, he, ?_⟩
    rw [hn]
    simp only []
    rw [if_pos hcond]
  · intro t ht0 ht1 row hrow
    have hj : inStockJoined stC7 = joinedC7 := by decide
    have hcond : ((95 + 3 : Int) : ℚ) - (100 + t) ≤ ((3 : Int) : ℚ) := by
      push_cast
      linarith
    have hr : get_expiring_rows stC7 (100 + t) 3 =
        [{ name := "milk", category := "", storage_type := "常温",
           shelf_life_days := 3, purchased_at := 95, expires_at := 95 + 3,
           days_remaining := ((95 + 3 : Int) : ℚ) - (100 + t) }] := by
      unfold get_expiring_rows
      rw [hj]
      simp only [joinedC7, List.filterMap_cons, List.filterMap_nil,
        if_pos hcond]
    unfold get_expiring_soon at hrow
    rw [hr, List.mergeSort_singleton] at hrow
    obtain rfl := List.mem_singleton.mp hrow
    refine ⟨?_, ?_, ?_, ?_⟩
    · show ((95 + 3 : Int) : ℚ) - (100 + t) = -2 - t
      push_cast
      ring
    · show (-3 : ℚ) < ((95 + 3 : Int) : ℚ) - (100 + t)
      push_cast
      linarith
    · show ((95 + 3 : Int) : ℚ) - (100 + t) ≤ -2
      push_cast
      linarith
    · show ((95 + 3 : Int) : ℚ) - (100 + t) < 0
      push_cast
      linarith

/-- C7 amended witness: at a quarter past local midnight of day 100, the
in-stock unit of `stC7` (purchased day 95, 3-day shelf life) yields a row
whose `days_remaining` is the real value `98 - 100.25`. -/
theorem C7_expiry_amended_witness :
    (((95 + 3 : Int) : ℚ) - (100 + 1 / 4) ≤ ((3 : Int) : ℚ)) ∧
    ∃ row ∈ get_expiring_soon stC7 (100 + 1 / 4) 3,
      row.shelf_life_days = 3 ∧ row.purchased_at = 95 ∧
      row.days_remaining = ((95 + 3 : Int) : ℚ) - (100 + 1 / 4) := by
  have hcond : ((95 + 3 : Int) : ℚ) - (100 + 1 / 4) ≤ ((3 : Int) : ℚ) := by
    push_cast
    norm_num
  have he : (⟨⟨1, 1, "in_stock"⟩, ⟨1, 1, "R", "", 0, 1, 0, 95⟩,
      ⟨1, "milk", "", "", none, "", "", 1, "常温", some 3⟩⟩ :
      InventoryRow × PurchaseRow × ProductRow) ∈ inStockJoined stC7 := by
    have hj : inStockJoined stC7 = joinedC7 := by decide
    rw [hj]
    exact List.mem_cons_self _ _
  obtain ⟨row, hmem, hname, hpa, hsl, hdr⟩ :=
    (C7_expiry_amended stC7 (100 + 1 / 4) 3).2.2.1 _ he 3 rfl hcond
  exact ⟨hcond, row, hmem, hsl, hpa, hdr⟩

/-- Every product the textual-stage loop body leaves in the list has a
positive price, provided the incoming list does: the two accepting
branches guard on `price > 0` and the discount branch changes only the
last product's discount. -/
theorem parseLinesStep_price (acc : List ParsedProduct) (line : String)
    (hacc : ∀ p ∈ acc, 0 < p.price) :
    ∀ p ∈ parseLinesStep acc line, 0 < p.price := by
  intro p hp
  unfold parseLinesStep at hp
  split at hp
  · exact hacc p hp
  · split at hp
    · simp only [] at hp
      split at hp
      · rename_i hguard
        simp only [Bool.and_eq_true, decide_eq_true_eq] at hguard
        rcases List.mem_append.mp hp with h | h
        · exact hacc p h
        · rcases List.mem_singleton.mp h with rfl
          exact hguard.1.2
      · exact hacc p hp
    · split at hp
      · simp only [] at hp
        split at hp
        · rename_i hguard
          simp only [Bool.and_eq_true, decide_eq_true_eq] at hguard
          rcases List.mem_append.mp hp with h | h
          · exact hacc p h
          · rcases List.mem_singleton.mp h with rfl
            exact hguard.1.2
        · exact hacc p hp
      · split at hp
        · split at hp
          · rename_i last hlast
            rcases List.mem_append.mp hp with h | h
            · exact hacc p (List.dropLast_subset _ h)
            · rcases List.mem_singleton.mp h with rfl
              exact hacc last (List.mem_of_getLast?_eq_some hlast)
          · exact hacc p hp
        · exact hacc p hp

/-- C9 (amended): an unparseable numeric token is coerced to zero/default
in both stages, but only the textual stage discards non-positive prices —
every item `_parse_from_lines` emits has `price > 0` — while the
structured stage keeps the line item regardless of its coerced price
(here: price token `"abc"` coerced to `0`, item kept). -/
theorem C9_price_filter_amended :
    (∀ (lines : List String) (p : ParsedProduct),
      p ∈ parse_from_lines lines → 0 < p.price) ∧
    parse_from_raw rawZeroPrice =
      .ok [{ name := "りんご", price := 0, quantity := 1, discount := 0,
             barcode := none }] := by
  constructor
  · intro lines
    suffices h : ∀ acc, (∀ p ∈ acc, 0 < p.price) →
        ∀ p ∈ lines.foldl parseLinesStep acc, 0 < p.price by
      intro p hp
      unfold parse_from_lines at hp
      exact h [] (by simp) p hp
    induction lines with
    | nil => intro acc hacc; exact hacc
    | cons l ls ih =>
      intro acc hacc
      exact ih _ (parseLinesStep_price acc l hacc)
  · rfl

/-- C9 amended witness: the `¥88※` water line is accepted with a positive
price. -/
theorem C9_price_filter_amended_witness :
    ({ name := "ﾄｯﾌﾟﾊﾞﾘｭ ﾐﾈﾗﾙｳｫｰﾀｰ", price := 88 } : ParsedProduct)
      ∈ parse_from_lines ["ﾄｯﾌﾟﾊﾞﾘｭ ﾐﾈﾗﾙｳｫｰﾀｰ      ¥88※"] ∧
    (0 : Int) <
      ({ name := "ﾄｯﾌﾟﾊﾞﾘｭ ﾐﾈﾗﾙｳｫｰﾀｰ", price := 88 } : ParsedProduct).price := by
  have hmem : ({ name := "ﾄｯﾌﾟﾊﾞﾘｭ ﾐﾈﾗﾙｳｫｰﾀｰ", price := 88 } : ParsedProduct)
      ∈ parse_from_lines ["ﾄｯﾌﾟﾊﾞﾘｭ ﾐﾈﾗﾙｳｫｰﾀｰ      ¥88※"] := by
    decide
  exact ⟨hmem, C9_price_filter_amended.1 _ _ hmem⟩
